import Mathlib

/-! # Hall-effect actuation pipeline

A shallow embedding of the Hall-effect key driver
(`zephyr/modules/hall_effect`): the ADC sampler and hysteresis actuator of
`hall_adc_driver.c`, the dispatcher of `hall_actuation.c` and the resolver of
`hall_socd.c`.

Conventions of the embedding:

* `int` / `int32_t` values are `Int`, brought back into range by `wrap32`
  after each arithmetic step; `uint32_t` fields are `Nat`, reduced by `u32`;
* a C division is `Int.tdiv` (truncation toward zero);
* calls into other modules and into the kernel are recorded, in program order,
  as a list of `Call`s returned next to the new state;
* the ADC peripheral is a function from the index of the `adc_read` call inside
  one averaging batch to what that call does (`AdcOutcome`).
-/

namespace HallEffect

/-! ## Machine integers -/

/-- Reinterpretation of an integer as a 32-bit signed `int`, wrapping around. -/
def wrap32 (x : Int) : Int := (x + 2147483648) % 4294967296 - 2147483648

/-- Reduction of an integer to a `uint32_t`. -/
def u32 (x : Int) : Nat := (x % 4294967296).toNat

/-- Conversion `(uint16_t)id` of an `int`. -/
def u16 (x : Int) : Nat := (x % 65536).toNat

/-! ## hall_adc_driver.c -/

/-- Number of raw readings in one averaging batch (`CONFIG_HALL_ADC_SAMPLES`). -/
def CONFIG_HALL_ADC_SAMPLES : Nat := 8

/-- Delay between two raw readings, in ms (`CONFIG_HALL_ADC_SAMPLE_INTERVAL_MS`). -/
def CONFIG_HALL_ADC_SAMPLE_INTERVAL_MS : Nat := 4

/-- Hysteresis margin in mV (`CONFIG_HALL_ADC_HYST_MV`). -/
def CONFIG_HALL_ADC_HYST_MV : Nat := 50

/-- Capacity of the sensor table (`MAX_DT_SENSORS`). -/
def MAX_DT_SENSORS : Nat := 16

/-- Resolution of a conversion, in bits (`ADC_RESOLUTION`). -/
def ADC_RESOLUTION : Nat := 12

/-- Reference voltage in mV (`VREF_MV`). -/
def VREF_MV : Int := 3300

/-- The fields of `struct dt_sensor_entry` that the driver computes with.
`baseline_mv`, `threshold_mv` and `hyst_mv` are `uint32_t`. -/
structure dt_sensor_entry where
  channel_id : Nat
  key_id : Int
  baseline_mv : Nat
  threshold_mv : Nat
  hyst_mv : Nat
  reported_state : Bool
  deriving DecidableEq, Repr

/-- A call that leaves the driver, in the order the code makes it. -/
inductive Call where
  | actuation_handle_event (key_id : Int) (is_pressed : Bool)
  | rapid_on_transition (key_id : Int)
  | rapid_stop (key_id : Int)
  | work_schedule (delay_ms : Nat)
  deriving DecidableEq, Repr

/-- What one `adc_read` does: its return code and the `int16_t` it stores in
the sequence buffer. -/
structure AdcOutcome where
  rc : Int
  raw_buf : Int
  deriving DecidableEq, Repr

/-- Range of the `int16_t` sample buffer. -/
def isInt16 (x : Int) : Prop := -32768 ≤ x ∧ x ≤ 32767

instance (x : Int) : Decidable (isInt16 x) := by
  unfold isInt16; infer_instance

/-- Source function `raw_to_mv(raw, resolution)`. -/
def raw_to_mv (raw : Int) (resolution : Nat) : Int :=
  let unsigned_raw : Int :=
    if raw < 0 then wrap32 (raw + 2 ^ (resolution - 1)) else raw
  wrap32 (Int.tdiv (wrap32 (unsigned_raw * VREF_MV)) (2 ^ resolution - 1))

/-- Source function `adc_sample_once`: the return code and the value left in
`*out_raw`, which the caller set to 0 and which is written only on success. -/
def adc_sample_once (o : AdcOutcome) : Int × Int :=
  if o.rc ≠ 0 then (o.rc, 0) else (0, o.raw_buf)

/-- The loop of `sample_average_mv`: `n` iterations are left, `i` is the index
of the next `adc_read`, `sum` the accumulator. -/
def sample_average_loop (adc : Nat → AdcOutcome) : Nat → Nat → Int → Int
  | 0, _, sum => Int.tdiv sum (CONFIG_HALL_ADC_SAMPLES : Int)
  | n + 1, i, sum =>
    let r := adc_sample_once (adc i)
    if r.1 ≠ 0 then r.1
    else sample_average_loop adc n (i + 1) (wrap32 (sum + raw_to_mv r.2 ADC_RESOLUTION))

/-- Source function `sample_average_mv`: the mean of the batch, or the return
code of the first failing read, both through the one `int` result. -/
def sample_average_mv (adc : Nat → AdcOutcome) : Int :=
  sample_average_loop adc CONFIG_HALL_ADC_SAMPLES 0 0

/-- The body of `sensor_sample_handler` after `avg_mv = sample_average_mv(s)`
(lines 100 to 121). -/
def sensor_sample_handler_avg (s : dt_sensor_entry) (avg_mv : Int) :
    dt_sensor_entry × List Call :=
  if avg_mv < 0 then
    (s, [Call.work_schedule 50])
  else if s.reported_state = false then
    if avg_mv ≥ wrap32 (s.threshold_mv : Int) then
      ({ s with reported_state := true },
        [Call.actuation_handle_event s.key_id true,
         Call.rapid_on_transition s.key_id,
         Call.work_schedule 20])
    else (s, [Call.work_schedule 20])
  else
    if avg_mv ≤ wrap32 (u32 ((s.threshold_mv : Int) - (s.hyst_mv : Int)) : Int) then
      ({ s with reported_state := false },
        [Call.actuation_handle_event s.key_id false,
         Call.rapid_stop s.key_id,
         Call.work_schedule 20])
    else (s, [Call.work_schedule 20])

/-- Source function `sensor_sample_handler`: one cycle of a sensor, the ADC
answering the batch as `adc` says. -/
def sensor_sample_handler (s : dt_sensor_entry) (adc : Nat → AdcOutcome) :
    dt_sensor_entry × List Call :=
  sensor_sample_handler_avg s (sample_average_mv adc)

/-- The press and release events handed to `hall_actuation_handle_event` among
a list of calls. -/
def actuation_events : List Call → List (Int × Bool)
  | [] => []
  | Call.actuation_handle_event k p :: cs => (k, p) :: actuation_events cs
  | _ :: cs => actuation_events cs

/-- One handler cycle of a run: the sensor before, the averaged voltage, the
sensor after and the calls made. -/
structure Cycle where
  before : dt_sensor_entry
  avg_mv : Int
  after : dt_sensor_entry
  calls : List Call
  deriving DecidableEq, Repr

/-- Successive handler cycles of one sensor on a sequence of averaged
voltages. -/
def run_cycles (s : dt_sensor_entry) : List Int → List Cycle
  | [] => []
  | v :: vs =>
    let r := sensor_sample_handler_avg s v
    { before := s, avg_mv := v, after := r.1, calls := r.2 } :: run_cycles r.1 vs

/-- The sensor after `n` further cycles at the same averaged voltage. -/
def iterate_handler (s : dt_sensor_entry) (v : Int) : Nat → dt_sensor_entry
  | 0 => s
  | n + 1 => iterate_handler (sensor_sample_handler_avg s v).1 v n

/-- The entry as `dt_init_sensors` fills it before calibration (lines 178 to
205). -/
def dt_init_entry (channel_id : Nat) (key_id : Int) : dt_sensor_entry :=
  { channel_id := channel_id, key_id := key_id, baseline_mv := 0,
    threshold_mv := 0, hyst_mv := CONFIG_HALL_ADC_HYST_MV, reported_state := false }

/-- The calibration step of `dt_init_sensors` for one sensor, given
`avg = sample_average_mv(&sensors[i])` (lines 222 to 230). -/
def dt_calibrate_avg (s : dt_sensor_entry) (avg : Int) : dt_sensor_entry :=
  if avg > 0 then
    let baseline_mv := u32 avg
    let assumed_active := u32 ((baseline_mv : Int) + 800)
    let threshold_mv :=
      u32 ((baseline_mv : Int) + ((u32 ((assumed_active : Int) - (baseline_mv : Int)) / 2 : Nat) : Int))
    { s with baseline_mv := baseline_mv, threshold_mv := threshold_mv,
             hyst_mv := CONFIG_HALL_ADC_HYST_MV }
  else s

/-- Boot calibration of one sensor (`CONFIG_HALL_ADC_CALIBRATE_ON_BOOT`), the
ADC answering the batch as `adc` says. -/
def dt_calibrate (s : dt_sensor_entry) (adc : Nat → AdcOutcome) : dt_sensor_entry :=
  dt_calibrate_avg s (sample_average_mv adc)

/-- What the ADC API lets one `adc_read` do: return 0 or a negative errno, and
store an `int16_t` in the buffer. -/
def adc_api (o : AdcOutcome) : Prop := o.rc ≤ 0 ∧ isInt16 o.raw_buf

instance (o : AdcOutcome) : Decidable (adc_api o) := by
  unfold adc_api; infer_instance

/-- The states the driver keeps a sensor in: `hyst_mv` is
`CONFIG_HALL_ADC_HYST_MV` (lines 205 and 226) and `threshold_mv` is 0 (line
204) or a calibrated `baseline + 400` (line 225), the baseline being an
averaged voltage, at most 26405 mV. -/
def dt_sensor_wf (s : dt_sensor_entry) : Prop :=
  s.hyst_mv = CONFIG_HALL_ADC_HYST_MV ∧ s.threshold_mv ≤ 26805

instance (s : dt_sensor_entry) : Decidable (dt_sensor_wf s) := by
  unfold dt_sensor_wf; infer_instance

/-! ## The sampler in the words of the specification -/

/-- The reading treated as unsigned, in the words of the specification. -/
def spec_unsigned (r : Int) : Int := if r ≥ 0 then r else r + 2 ^ 11

/-- Millivolt value of one reading, in the words of the specification. -/
def spec_reading_mv (r : Int) : Int := Int.tdiv (spec_unsigned r * 3300) (2 ^ 12 - 1)

/-- Integer-truncated arithmetic mean of the millivolt values of a batch, in
the words of the specification. -/
def spec_sample_mean (rs : List Int) : Int :=
  Int.tdiv (rs.map spec_reading_mv).sum (rs.length : Int)

/-! ## hall_socd.c and hall_actuation.c -/

/-- Capacity of the resolver table (`MAX_HALL_SENSORS`). -/
def MAX_HALL_SENSORS : Nat := 32

/-- The file-scope variables of `hall_socd.c`. `policy` is initialised from
`CONFIG_HALL_SOCD_POLICY` (0 = neutral, 1 = up_priority, 2 = last). -/
structure socd_state where
  sensor_state : List Bool
  sensor_count : Int
  policy : Int
  last_pressed_id : Int
  deriving DecidableEq, Repr

/-- The resolver variables at program start, for a configured policy. -/
def socd_boot (policy : Int) : socd_state :=
  { sensor_state := List.replicate MAX_HALL_SENSORS false, sensor_count := 0,
    policy := policy, last_pressed_id := -1 }

/-- The states the module keeps itself in: the table has its
`MAX_HALL_SENSORS` entries and `sensor_count` does not exceed them. -/
def socd_wf (st : socd_state) : Prop :=
  st.sensor_state.length = MAX_HALL_SENSORS ∧ st.sensor_count ≤ (MAX_HALL_SENSORS : Int)

instance (st : socd_state) : Decidable (socd_wf st) := by
  unfold socd_wf; infer_instance

/-- The clearing loop of `hall_socd_register_sensor_count`: `n` iterations are
left and `i` is the loop index. -/
def clear_sensor_state (xs : List Bool) : Nat → Nat → List Bool
  | 0, _ => xs
  | n + 1, i => clear_sensor_state (xs.set i false) n (i + 1)

/-- Source function `hall_socd_register_sensor_count`. -/
def hall_socd_register_sensor_count (st : socd_state) (count : Int) : socd_state :=
  let count := if count > (MAX_HALL_SENSORS : Int) then (MAX_HALL_SENSORS : Int) else count
  { st with sensor_count := count,
            sensor_state := clear_sensor_state st.sensor_state count.toNat 0 }

/-- Source function `emit_state`: the one `hall_emit_key_position` call, as
the pair of its arguments. -/
def emit_state (st : socd_state) (id : Int) : List (Nat × Bool) :=
  [(u16 id, st.sensor_state.getD id.toNat false)]

/-- Source function `hall_socd_register_press`. -/
def hall_socd_register_press (st : socd_state) (key_id : Int) :
    socd_state × List (Nat × Bool) :=
  if key_id < 0 ∨ key_id ≥ st.sensor_count then (st, [])
  else
    let st1 := { st with sensor_state := st.sensor_state.set key_id.toNat true,
                         last_pressed_id := key_id }
    (st1, emit_state st1 key_id)

/-- Source function `hall_socd_register_release`. -/
def hall_socd_register_release (st : socd_state) (key_id : Int) :
    socd_state × List (Nat × Bool) :=
  if key_id < 0 ∨ key_id ≥ st.sensor_count then (st, [])
  else
    let st1 := { st with sensor_state := st.sensor_state.set key_id.toNat false }
    (st1, emit_state st1 key_id)

/-- Source function `hall_actuation_handle_event`. -/
def hall_actuation_handle_event (st : socd_state) (key_id : Int) (is_pressed : Bool) :
    socd_state × List (Nat × Bool) :=
  if is_pressed then hall_socd_register_press st key_id
  else hall_socd_register_release st key_id

/-- A sequence of actuator events delivered in order through
`hall_actuation_handle_event`, with the key-position events emitted. -/
def socd_run (st : socd_state) : List (Int × Bool) → socd_state × List (Nat × Bool)
  | [] => (st, [])
  | (k, p) :: es =>
    let r := hall_actuation_handle_event st k p
    let r2 := socd_run r.1 es
    (r2.1, r.2 ++ r2.2)

/-! ## hall_rapid_trigger.c -/

/-- Capacity of the rapid-trigger table (`MAX_SENSORS`). -/
def MAX_SENSORS : Nat := 32

/-- The fields of `struct rapid_state`. `repeat_timer` is the state of the
kernel timer: `none` while it is stopped, `some (duration, period)`, in ms,
while it runs. -/
structure rapid_state where
  last_transition_ms : Nat
  in_rapid : Bool
  repeat_timer : Option (Nat × Nat)
  key_id : Int
  deriving DecidableEq, Repr

/-- An entry of the zero-initialised static table `rstates`. -/
def rapid_state_zero : rapid_state :=
  { last_transition_ms := 0, in_rapid := false, repeat_timer := none, key_id := 0 }

/-- The table `rstates` at program start. -/
def rapid_boot : List rapid_state := List.replicate MAX_SENSORS rapid_state_zero

/-- A kernel timer call made by the rapid-trigger module. -/
inductive TimerCall where
  | timer_start (idx : Nat) (duration_ms : Nat) (period_ms : Nat)
  | timer_stop (idx : Nat)
  deriving DecidableEq, Repr

/-- Kernel function `k_uptime_get_32`: the low 32 bits of the uptime in ms. -/
def k_uptime_get_32 (uptime_ms : Nat) : Nat := uptime_ms % 4294967296

/-- Source function `repeat_timeout`: the two `hall_emit_key_position` calls of
one timer expiry, as the pairs of their arguments. -/
def repeat_timeout (rs : rapid_state) : List (Nat × Bool) :=
  [(u16 rs.key_id, true), (u16 rs.key_id, false)]

/-- Source function `hall_rapid_on_transition`, called at kernel uptime
`uptime_ms`. -/
def hall_rapid_on_transition (rstates : List rapid_state) (uptime_ms : Nat) (key_id : Int) :
    List rapid_state × List TimerCall :=
  let now := k_uptime_get_32 uptime_ms
  let rs := rstates.getD key_id.toNat rapid_state_zero
  let dt := u32 ((now : Int) - (rs.last_transition_ms : Int))
  let rs1 := { rs with last_transition_ms := now }
  if dt < CONFIG_HALL_ADC_SAMPLE_INTERVAL_MS * 4 then
    if rs1.in_rapid = false then
      (rstates.set key_id.toNat
          { rs1 with in_rapid := true, key_id := key_id, repeat_timer := some (100, 100) },
        [TimerCall.timer_start key_id.toNat 100 100])
    else (rstates.set key_id.toNat rs1, [])
  else (rstates.set key_id.toNat rs1, [])

/-- Source function `hall_rapid_stop`. -/
def hall_rapid_stop (rstates : List rapid_state) (key_id : Int) :
    List rapid_state × List TimerCall :=
  let rs := rstates.getD key_id.toNat rapid_state_zero
  if rs.in_rapid = true then
    (rstates.set key_id.toNat { rs with in_rapid := false, repeat_timer := none },
      [TimerCall.timer_stop key_id.toNat])
  else (rstates, [])

/-- The value `dt` that a call of `hall_rapid_on_transition` computes. -/
def rapid_dt (rstates : List rapid_state) (uptime_ms : Nat) (key_id : Int) : Nat :=
  u32 ((k_uptime_get_32 uptime_ms : Int)
    - ((rstates.getD key_id.toNat rapid_state_zero).last_transition_ms : Int))

/-- The states the rapid-trigger module keeps an entry in: its timer runs only
while `in_rapid` is set. -/
def rapid_entry_wf (rs : rapid_state) : Prop :=
  rs.in_rapid = false → rs.repeat_timer = none

instance (rs : rapid_state) : Decidable (rapid_entry_wf rs) := by
  unfold rapid_entry_wf; infer_instance

/-! ## The modules together -/

/-- The variables of the resolver and of the rapid-trigger module. -/
structure system_state where
  socd : socd_state
  rstates : List rapid_state
  deriving DecidableEq, Repr

/-- What a run of code lets out: the `hall_emit_key_position` calls and the
kernel timer calls, each in order. -/
structure Emitted where
  key_positions : List (Nat × Bool)
  timer_calls : List TimerCall
  deriving DecidableEq, Repr

/-- One call of the driver carried out on the other modules at uptime
`uptime_ms`. -/
def exec_call (uptime_ms : Nat) (sys : system_state) : Call → system_state × Emitted
  | Call.actuation_handle_event k p =>
    let r := hall_actuation_handle_event sys.socd k p
    ({ sys with socd := r.1 }, { key_positions := r.2, timer_calls := [] })
  | Call.rapid_on_transition k =>
    let r := hall_rapid_on_transition sys.rstates uptime_ms k
    ({ sys with rstates := r.1 }, { key_positions := [], timer_calls := r.2 })
  | Call.rapid_stop k =>
    let r := hall_rapid_stop sys.rstates k
    ({ sys with rstates := r.1 }, { key_positions := [], timer_calls := r.2 })
  | Call.work_schedule _ => (sys, { key_positions := [], timer_calls := [] })

/-- The calls of one handler run carried out in order. -/
def exec_calls (uptime_ms : Nat) (sys : system_state) : List Call → system_state × Emitted
  | [] => (sys, { key_positions := [], timer_calls := [] })
  | c :: cs =>
    let r := exec_call uptime_ms sys c
    let r2 := exec_calls uptime_ms r.1 cs
    (r2.1, { key_positions := r.2.key_positions ++ r2.2.key_positions,
             timer_calls := r.2.timer_calls ++ r2.2.timer_calls })

/-- One handler cycle of a sensor, given the averaged voltage, with its calls
carried out at uptime `uptime_ms`. -/
def system_cycle_avg (uptime_ms : Nat) (sys : system_state) (s : dt_sensor_entry)
    (avg_mv : Int) : dt_sensor_entry × system_state × Emitted :=
  let r := sensor_sample_handler_avg s avg_mv
  let e := exec_calls uptime_ms sys r.2
  (r.1, e.1, e.2)

/-- An expiry of the repeat timer of entry `idx`: `repeat_timeout` runs when
that timer is running. -/
def timer_tick (sys : system_state) (idx : Nat) : system_state × List (Nat × Bool) :=
  match sys.rstates[idx]? with
  | some rs => if rs.repeat_timer.isSome then (sys, repeat_timeout rs) else (sys, [])
  | none => (sys, [])

/-- The state last emitted for key position `id` by a list of key-position
events, `init` when there is none. -/
def last_emitted (id : Nat) (init : Bool) : List (Nat × Bool) → Bool
  | [] => init
  | (k, p) :: es => last_emitted id (if k = id then p else init) es

/-- The component that a call of the handler delivers a transition to, with
the sensor id and the pressed flag: `hall_actuation_handle_event` forwards to
`hall_socd_register_press` or `hall_socd_register_release`. -/
inductive Delivery where
  | socd_resolver (key_id : Int) (pressed : Bool)
  | rapid_trigger (key_id : Int) (pressed : Bool)
  deriving DecidableEq, Repr

/-- The deliveries among the calls of a handler run, in order. -/
def deliveries : List Call → List Delivery
  | [] => []
  | Call.actuation_handle_event k p :: cs => Delivery.socd_resolver k p :: deliveries cs
  | Call.rapid_on_transition k :: cs => Delivery.rapid_trigger k true :: deliveries cs
  | Call.rapid_stop k :: cs => Delivery.rapid_trigger k false :: deliveries cs
  | Call.work_schedule _ :: cs => deliveries cs

/-! ## dt_init_sensors -/

/-- Zephyr error number `ENODEV`. -/
def ENODEV : Int := 19

/-- A devicetree node `hall_sensor_N` as the driver reads it: whether its
status is okay, and its `key-id` property when it has one. -/
structure DtNode where
  status_okay : Bool
  key_id : Option Int
  deriving DecidableEq, Repr

/-- The `switch` of `dt_init_sensors`: the node labelled `hall_sensor_i` for
`i` up to 9, `none` standing for `DT_INVALID_NODE`. The devicetree is the list
of the labelled nodes by label number. -/
def dt_node (dt : List (Option DtNode)) (i : Nat) : Option DtNode :=
  if i ≤ 9 then dt.getD i none else none

/-- The parsing loop of `dt_init_sensors`: `n` iterations are left, `i` is the
loop index and `sensors` the entries filled so far, `dt_sensor_count` being
their number. -/
def dt_init_loop (dt : List (Option DtNode)) : Nat → Nat → List dt_sensor_entry →
    List dt_sensor_entry
  | 0, _, sensors => sensors
  | n + 1, i, sensors =>
    match dt_node dt i with
    | none => dt_init_loop dt n (i + 1) sensors
    | some node =>
      if node.status_okay = false then dt_init_loop dt n (i + 1) sensors
      else if sensors.length ≥ MAX_DT_SENSORS then sensors
      else
        let key_id : Int :=
          match node.key_id with
          | some k => k
          | none => (sensors.length : Int)
        if sensors.length = 0 then
          dt_init_loop dt n (i + 1) (sensors ++ [dt_init_entry 0 key_id])
        else if sensors.length = 1 then
          dt_init_loop dt n (i + 1) (sensors ++ [dt_init_entry 5 key_id])
        else sensors

/-- The calibration loop of `dt_init_sensors`: sensor `i` is calibrated with
the batch `adcs i`. -/
def dt_calibrate_loop (adcs : Nat → Nat → AdcOutcome) : Nat → List dt_sensor_entry →
    List dt_sensor_entry
  | _, [] => []
  | i, s :: ss => dt_calibrate s (adcs i) :: dt_calibrate_loop adcs (i + 1) ss

/-- What `dt_init_sensors` leaves on success: the sensor table, the resolver
variables and the delay of the first `k_work_schedule` of each sensor. -/
structure dt_boot where
  sensors : List dt_sensor_entry
  socd : socd_state
  first_delay_ms : List Nat
  deriving DecidableEq, Repr

/-- Source function `dt_init_sensors`. `adc_found` tells whether
`device_get_binding` finds the ADC, `calibrate_on_boot` is
`CONFIG_HALL_ADC_CALIBRATE_ON_BOOT`, `socd` the resolver variables before the
call; an error is the negative code returned. -/
def dt_init_sensors (adc_found : Bool) (dt : List (Option DtNode)) (calibrate_on_boot : Bool)
    (adcs : Nat → Nat → AdcOutcome) (socd : socd_state) : Except Int dt_boot :=
  if adc_found = false then Except.error (-ENODEV)
  else
    let parsed := dt_init_loop dt MAX_DT_SENSORS 0 []
    if parsed.length = 0 then Except.error (-ENODEV)
    else
      let sensors := if calibrate_on_boot = true then dt_calibrate_loop adcs 0 parsed else parsed
      Except.ok
        { sensors := sensors,
          socd := hall_socd_register_sensor_count socd (parsed.length : Int),
          first_delay_ms := sensors.map (fun _ => 100) }

/-! ## One sensor in time -/

/-- The delay of the `k_work_schedule` call among the calls of a handler
run. -/
def scheduled_delay : List Call → Nat
  | [] => 0
  | Call.work_schedule d :: _ => d
  | _ :: cs => scheduled_delay cs

/-- What the environment decides for one cycle of a sensor: how long after its
due time the work item starts, how long it then takes until the handler makes
its calls (the averaging batch), and what the ADC answers. -/
structure TimedCycle where
  latency_ms : Nat
  batch_ms : Nat
  adc : Nat → AdcOutcome

/-- A sensor between two cycles: the uptime at which its work item is due, its
entry, and the variables of the other modules. -/
structure pipeline_state where
  due_ms : Nat
  sensor : dt_sensor_entry
  sys : system_state
  deriving DecidableEq, Repr

/-- One executed cycle: the uptime at which the handler makes its calls, the
state before, the calls, what they emit and the state after. -/
structure CycleRecord where
  uptime_ms : Nat
  before : pipeline_state
  calls : List Call
  emitted : Emitted
  after : pipeline_state
  deriving DecidableEq, Repr

/-- One cycle of `sensor_sample_handler` in time: the work item starts
`latency_ms` after it is due, the handler makes its calls `batch_ms` later, and
the next cycle is due after the delay it passes to `k_work_schedule`. -/
def pipeline_cycle (p : pipeline_state) (c : TimedCycle) : CycleRecord :=
  let uptime := p.due_ms + c.latency_ms + c.batch_ms
  let r := sensor_sample_handler p.sensor c.adc
  let e := exec_calls uptime p.sys r.2
  { uptime_ms := uptime, before := p, calls := r.2, emitted := e.2,
    after := { due_ms := uptime + scheduled_delay r.2, sensor := r.1, sys := e.1 } }

/-- Successive cycles of one sensor. -/
def pipeline_run (p : pipeline_state) : List TimedCycle → List CycleRecord
  | [] => []
  | c :: cs => pipeline_cycle p c :: pipeline_run (pipeline_cycle p c).after cs

/-! ## Machine-integer lemmas -/

theorem wrap32_of_range (x : Int) (h1 : -2147483648 ≤ x) (h2 : x < 2147483648) :
    wrap32 x = x := by
  unfold wrap32; omega

theorem u32_cast (x : Int) : ((u32 x : Nat) : Int) = x % 4294967296 := by
  unfold u32; omega

theorem u16_small (k : Int) (h0 : 0 ≤ k) (h1 : k < 65536) : u16 k = k.toNat := by
  unfold u16; omega

/-- The press level `(int)s->threshold_mv` is the threshold itself when the
threshold fits an `int`. -/
theorem press_level_eq (t : Nat) (ht : t < 2147483648) : wrap32 (t : Int) = t := by
  unfold wrap32; omega

/-- The release level `(int)(s->threshold_mv - s->hyst_mv)` is the integer
difference when both fields fit an `int`, also when it is negative. -/
theorem release_level_eq (t h : Nat) (ht : t < 2147483648) (hh : h < 2147483648) :
    wrap32 (u32 ((t : Int) - (h : Int)) : Int) = (t : Int) - h := by
  rw [u32_cast]; unfold wrap32; omega

/-! ## The actuator: one cycle -/

/-- The handler writes `reported_state` only. -/
theorem handler_frame (s : dt_sensor_entry) (v : Int) :
    (sensor_sample_handler_avg s v).1.threshold_mv = s.threshold_mv ∧
    (sensor_sample_handler_avg s v).1.hyst_mv = s.hyst_mv ∧
    (sensor_sample_handler_avg s v).1.key_id = s.key_id ∧
    (sensor_sample_handler_avg s v).1.baseline_mv = s.baseline_mv ∧
    (sensor_sample_handler_avg s v).1.channel_id = s.channel_id := by
  unfold sensor_sample_handler_avg
  split_ifs <;> simp

theorem handler_failure (s : dt_sensor_entry) (v : Int) (hv : v < 0) :
    sensor_sample_handler_avg s v = (s, [Call.work_schedule 50]) := by
  simp [sensor_sample_handler_avg, hv]

theorem handler_released_idle (s : dt_sensor_entry) (v : Int)
    (hs : s.reported_state = false) (hv : 0 ≤ v) (hlt : v < wrap32 (s.threshold_mv : Int)) :
    sensor_sample_handler_avg s v = (s, [Call.work_schedule 20]) := by
  have h0 : ¬ v < 0 := by omega
  have h1 : ¬ v ≥ wrap32 (s.threshold_mv : Int) := by omega
  simp only [sensor_sample_handler_avg, h0, hs, h1, if_true, if_false]

theorem handler_released_press (s : dt_sensor_entry) (v : Int)
    (hs : s.reported_state = false) (hv : 0 ≤ v) (hge : wrap32 (s.threshold_mv : Int) ≤ v) :
    sensor_sample_handler_avg s v =
      ({ s with reported_state := true },
        [Call.actuation_handle_event s.key_id true, Call.rapid_on_transition s.key_id,
         Call.work_schedule 20]) := by
  have h0 : ¬ v < 0 := by omega
  have h1 : v ≥ wrap32 (s.threshold_mv : Int) := hge
  simp only [sensor_sample_handler_avg, h0, hs, h1, if_true, if_false]

theorem handler_pressed_hold (s : dt_sensor_entry) (v : Int)
    (hs : s.reported_state = true) (hv : 0 ≤ v)
    (hgt : wrap32 (u32 ((s.threshold_mv : Int) - (s.hyst_mv : Int)) : Int) < v) :
    sensor_sample_handler_avg s v = (s, [Call.work_schedule 20]) := by
  have h0 : ¬ v < 0 := by omega
  have h1 : ¬ v ≤ wrap32 (u32 ((s.threshold_mv : Int) - (s.hyst_mv : Int)) : Int) := by omega
  simp [sensor_sample_handler_avg, h0, hs, h1]

theorem handler_pressed_release (s : dt_sensor_entry) (v : Int)
    (hs : s.reported_state = true) (hv : 0 ≤ v)
    (hle : v ≤ wrap32 (u32 ((s.threshold_mv : Int) - (s.hyst_mv : Int)) : Int)) :
    sensor_sample_handler_avg s v =
      ({ s with reported_state := false },
        [Call.actuation_handle_event s.key_id false, Call.rapid_stop s.key_id,
         Call.work_schedule 20]) := by
  have h0 : ¬ v < 0 := by omega
  simp [sensor_sample_handler_avg, h0, hs, hle]

theorem handler_cycle_dead_band (s : dt_sensor_entry) (v : Int)
    (ht : s.threshold_mv < 2147483648) (hh : s.hyst_mv < 2147483648) :
    (s.reported_state = true → (sensor_sample_handler_avg s v).1.reported_state = false →
        v ≤ (s.threshold_mv : Int) - s.hyst_mv) ∧
    ((s.threshold_mv : Int) - s.hyst_mv < v → v < s.threshold_mv →
        (sensor_sample_handler_avg s v).1.reported_state = s.reported_state ∧
        actuation_events (sensor_sample_handler_avg s v).2 = []) := by
  have hp := press_level_eq s.threshold_mv ht
  have hr := release_level_eq s.threshold_mv s.hyst_mv ht hh
  unfold sensor_sample_handler_avg
  rw [hp, hr]
  refine ⟨?_, ?_⟩
  · intro hs
    split_ifs <;> simp_all
  · intro h1 h2
    split_ifs <;> simp_all [actuation_events] <;> omega

theorem run_cycles_dead_band (vs : List Int) :
    ∀ (s : dt_sensor_entry) (t h : Nat), s.threshold_mv = t → s.hyst_mv = h →
      t < 2147483648 → h < 2147483648 →
      ∀ c ∈ run_cycles s vs,
        (c.before.reported_state = true → c.after.reported_state = false →
            c.avg_mv ≤ (t : Int) - h) ∧
        ((t : Int) - h < c.avg_mv → c.avg_mv < t →
            c.after.reported_state = c.before.reported_state ∧
            actuation_events c.calls = []) := by
  induction vs with
  | nil => intro s t h _ _ _ _ c hc; simp [run_cycles] at hc
  | cons v vs ih =>
    intro s t h hst hsh ht hh c hc
    simp only [run_cycles, List.mem_cons] at hc
    rcases hc with hc | hc
    · subst hc
      have key := handler_cycle_dead_band s v (by omega) (by omega)
      rw [hst, hsh] at key
      exact key
    · have fr := handler_frame s v
      exact ih (sensor_sample_handler_avg s v).1 t h (by rw [fr.1, hst]) (by rw [fr.2.1, hsh])
        ht hh c hc

/-- When the release level lies below the press level, a second cycle at the
same averaged voltage changes nothing and only reschedules. -/
theorem handler_same_voltage_stable (s : dt_sensor_entry) (v : Int)
    (hlevels : wrap32 (u32 ((s.threshold_mv : Int) - (s.hyst_mv : Int)) : Int)
      < wrap32 (s.threshold_mv : Int)) :
    sensor_sample_handler_avg (sensor_sample_handler_avg s v).1 v
      = ((sensor_sample_handler_avg s v).1,
          if v < 0 then [Call.work_schedule 50] else [Call.work_schedule 20]) := by
  unfold sensor_sample_handler_avg
  split_ifs <;> simp_all <;> omega

theorem iterate_handler_stable (s : dt_sensor_entry) (v : Int)
    (hfix : (sensor_sample_handler_avg s v).1 = s) (n : Nat) :
    iterate_handler s v n = s := by
  induction n with
  | zero => rfl
  | succ n ih => rw [iterate_handler, hfix, ih]

/-! ## The actuator: claims -/

/-- For a sensor whose `threshold_mv` and `hyst_mv` are below 2^31 the casts
of the handler keep their values: in every run over a sequence of averaged
voltages a cycle that starts Pressed and ends Released has a voltage at most
`threshold_mv - hyst_mv`, and a cycle whose voltage lies strictly between the
two levels changes nothing and hands over no event. -/
theorem dead_band_of_int_range (s : dt_sensor_entry) (vs : List Int)
    (ht : s.threshold_mv < 2147483648) (hh : s.hyst_mv < 2147483648) :
    ∀ c ∈ run_cycles s vs,
      (c.before.reported_state = true → c.after.reported_state = false →
          c.avg_mv ≤ (s.threshold_mv : Int) - s.hyst_mv) ∧
      ((s.threshold_mv : Int) - s.hyst_mv < c.avg_mv → c.avg_mv < s.threshold_mv →
          c.after.reported_state = c.before.reported_state ∧
          actuation_events c.calls = []) :=
  run_cycles_dead_band vs s s.threshold_mv s.hyst_mv rfl rfl ht hh

/-- For a Released sensor whose `threshold_mv` is below 2^31 and a
successfully averaged voltage `v`, the handler presses, with the one event
`(key_id, true)`, if and only if `v >= threshold_mv`. -/
theorem press_rule_of_int_range (s : dt_sensor_entry) (v : Int)
    (hrel : s.reported_state = false) (hv : 0 ≤ v) (ht : s.threshold_mv < 2147483648) :
    (((sensor_sample_handler_avg s v).1.reported_state = true ∧
        actuation_events (sensor_sample_handler_avg s v).2 = [(s.key_id, true)]) ↔
      (s.threshold_mv : Int) ≤ v) ∧
    (v < (s.threshold_mv : Int) →
      (sensor_sample_handler_avg s v).1.reported_state = false ∧
      actuation_events (sensor_sample_handler_avg s v).2 = []) := by
  have hp := press_level_eq s.threshold_mv ht
  unfold sensor_sample_handler_avg
  rw [hp]
  have hneg : ¬ v < 0 := by omega
  simp only [hneg, hrel, if_true, if_false]
  by_cases h : (s.threshold_mv : Int) ≤ v
  · simp [h, actuation_events]
  · simp [h, actuation_events, hrel]

/-- C3 (amended): for a sensor with baseline 500 mV, threshold 900 mV and
hysteresis 50 mV starting Released, the averaged samples 400, 600, 950, 960,
840, 400 mV produce exactly two events: a press at the 950 mV sample and a
release at the 840 mV sample (840 <= 850); the 400, 600, 960 and final 400 mV
samples produce none. -/
theorem actuation_example (channel_id : Nat) (key_id : Int) :
    (run_cycles ⟨channel_id, key_id, 500, 900, 50, false⟩ [400, 600, 950, 960, 840, 400]).map
        (fun c => (c.avg_mv, actuation_events c.calls)) =
      [(400, []), (600, []), (950, [(key_id, true)]), (960, []),
       (840, [(key_id, false)]), (400, [])] := by
  have e1 : sensor_sample_handler_avg ⟨channel_id, key_id, 500, 900, 50, false⟩ 400
      = (⟨channel_id, key_id, 500, 900, 50, false⟩, [Call.work_schedule 20]) :=
    handler_released_idle _ _ rfl (by decide)
      (show (400 : Int) < wrap32 ((900 : Nat) : Int) by decide)
  have e2 : sensor_sample_handler_avg ⟨channel_id, key_id, 500, 900, 50, false⟩ 600
      = (⟨channel_id, key_id, 500, 900, 50, false⟩, [Call.work_schedule 20]) :=
    handler_released_idle _ _ rfl (by decide)
      (show (600 : Int) < wrap32 ((900 : Nat) : Int) by decide)
  have e3 : sensor_sample_handler_avg ⟨channel_id, key_id, 500, 900, 50, false⟩ 950
      = (⟨channel_id, key_id, 500, 900, 50, true⟩,
          [Call.actuation_handle_event key_id true, Call.rapid_on_transition key_id,
           Call.work_schedule 20]) :=
    handler_released_press _ _ rfl (by decide)
      (show wrap32 ((900 : Nat) : Int) ≤ (950 : Int) by decide)
  have e4 : sensor_sample_handler_avg ⟨channel_id, key_id, 500, 900, 50, true⟩ 960
      = (⟨channel_id, key_id, 500, 900, 50, true⟩, [Call.work_schedule 20]) :=
    handler_pressed_hold _ _ rfl (by decide)
      (show wrap32 (u32 (((900 : Nat) : Int) - ((50 : Nat) : Int)) : Int) < (960 : Int) by decide)
  have e5 : sensor_sample_handler_avg ⟨channel_id, key_id, 500, 900, 50, true⟩ 840
      = (⟨channel_id, key_id, 500, 900, 50, false⟩,
          [Call.actuation_handle_event key_id false, Call.rapid_stop key_id,
           Call.work_schedule 20]) :=
    handler_pressed_release _ _ rfl (by decide)
      (show (840 : Int) ≤ wrap32 (u32 (((900 : Nat) : Int) - ((50 : Nat) : Int)) : Int) by decide)
  rw [run_cycles]
  simp only [e1]
  rw [run_cycles, run_cycles, run_cycles, run_cycles, run_cycles, run_cycles]
  simp only [e1, e2, e3, e4, e5]
  rfl

/-- Counterexample to C3 as stated: on sensor 0 the events of the run are not
a press at 950 mV followed by a release at the final 400 mV sample with nothing
at 840 mV. -/
theorem actuation_example_counterexample :
    (run_cycles ⟨0, 0, 500, 900, 50, false⟩ [400, 600, 950, 960, 840, 400]).map
        (fun c => (c.avg_mv, actuation_events c.calls)) ≠
      [(400, []), (600, []), (950, [(0, true)]), (960, []), (840, []), (400, [(0, false)])] := by
  decide

/-- For a sensor with `0 < hyst_mv` whose `threshold_mv` and `hyst_mv` are
below 2^31, after one handler cycle at `v` any number of further cycles at `v`
changes nothing and hands over no event. -/
theorem actuator_idempotent_of_int_range (s : dt_sensor_entry) (v : Int) (n : Nat)
    (hpos : 0 < s.hyst_mv) (ht : s.threshold_mv < 2147483648) (hh : s.hyst_mv < 2147483648) :
    iterate_handler (sensor_sample_handler_avg s v).1 v n = (sensor_sample_handler_avg s v).1 ∧
    actuation_events
      (sensor_sample_handler_avg (iterate_handler (sensor_sample_handler_avg s v).1 v n) v).2
      = [] := by
  have hlv : wrap32 (u32 ((s.threshold_mv : Int) - (s.hyst_mv : Int)) : Int)
      < wrap32 (s.threshold_mv : Int) := by
    rw [press_level_eq s.threshold_mv ht, release_level_eq s.threshold_mv s.hyst_mv ht hh]
    omega
  have hst := handler_same_voltage_stable s v hlv
  have hfix : (sensor_sample_handler_avg (sensor_sample_handler_avg s v).1 v).1
      = (sensor_sample_handler_avg s v).1 := by rw [hst]
  have hit := iterate_handler_stable (sensor_sample_handler_avg s v).1 v hfix n
  refine ⟨hit, ?_⟩
  rw [hit, hst]
  split_ifs <;> rfl

/-- A sensor in the range the driver keeps has both fields far below 2^31 and
a positive hysteresis. -/
theorem dt_sensor_wf_range (s : dt_sensor_entry) (hwf : dt_sensor_wf s) :
    s.threshold_mv < 2147483648 ∧ s.hyst_mv < 2147483648 ∧ 0 < s.hyst_mv := by
  obtain ⟨hh, ht⟩ := hwf
  unfold CONFIG_HALL_ADC_HYST_MV at hh
  omega

/-- The handler keeps a sensor in the range of the driver. -/
theorem dt_sensor_wf_handler (s : dt_sensor_entry) (v : Int) (hwf : dt_sensor_wf s) :
    dt_sensor_wf (sensor_sample_handler_avg s v).1 := by
  have fr := handler_frame s v
  unfold dt_sensor_wf at hwf ⊢
  rw [fr.1, fr.2.1]
  exact hwf

/-- C1: for every sensor in a state the driver keeps it in (`hyst_mv` 50,
`threshold_mv` 0 or a calibrated value) and every sequence of averaged
voltages fed to the handler, a cycle that starts Pressed and ends Released has
a voltage at most `threshold_mv - hyst_mv`, and a cycle whose voltage lies
strictly between `threshold_mv - hyst_mv` and `threshold_mv` leaves
`reported_state` as it was and hands no event to
`hall_actuation_handle_event`, whichever state the sensor is in. -/
theorem dead_band_no_chatter (s : dt_sensor_entry) (vs : List Int) (hwf : dt_sensor_wf s) :
    ∀ c ∈ run_cycles s vs,
      (c.before.reported_state = true → c.after.reported_state = false →
          c.avg_mv ≤ (s.threshold_mv : Int) - s.hyst_mv) ∧
      ((s.threshold_mv : Int) - s.hyst_mv < c.avg_mv → c.avg_mv < s.threshold_mv →
          c.after.reported_state = c.before.reported_state ∧
          actuation_events c.calls = []) :=
  dead_band_of_int_range s vs (dt_sensor_wf_range s hwf).1 (dt_sensor_wf_range s hwf).2.1

/-- Witness of C1: a Pressed sensor with threshold 900 and hysteresis 50 fed
860, 870 and 840 mV. -/
theorem dead_band_no_chatter_witness :
    dt_sensor_wf ⟨0, 0, 500, 900, 50, true⟩ ∧
    ∀ c ∈ run_cycles ⟨0, 0, 500, 900, 50, true⟩ [860, 870, 840],
      (c.before.reported_state = true → c.after.reported_state = false →
          c.avg_mv ≤ ((900 : Nat) : Int) - (50 : Nat)) ∧
      (((900 : Nat) : Int) - (50 : Nat) < c.avg_mv → c.avg_mv < (900 : Nat) →
          c.after.reported_state = c.before.reported_state ∧
          actuation_events c.calls = []) :=
  ⟨by decide, dead_band_no_chatter ⟨0, 0, 500, 900, 50, true⟩ [860, 870, 840] (by decide)⟩

/-- C2: for every sensor in a state the driver keeps it in, Released, and
every successfully averaged voltage `v`, the handler moves the sensor to
Pressed and hands exactly the one event `(key_id, true)` to
`hall_actuation_handle_event` if and only if `v >= threshold_mv`; when
`v < threshold_mv` the sensor stays Released and no event is handed over. -/
theorem press_rule (s : dt_sensor_entry) (v : Int) (hwf : dt_sensor_wf s)
    (hrel : s.reported_state = false) (hv : 0 ≤ v) :
    (((sensor_sample_handler_avg s v).1.reported_state = true ∧
        actuation_events (sensor_sample_handler_avg s v).2 = [(s.key_id, true)]) ↔
      (s.threshold_mv : Int) ≤ v) ∧
    (v < (s.threshold_mv : Int) →
      (sensor_sample_handler_avg s v).1.reported_state = false ∧
      actuation_events (sensor_sample_handler_avg s v).2 = []) :=
  press_rule_of_int_range s v hrel hv (dt_sensor_wf_range s hwf).1

/-- Witness of C2: a Released sensor with threshold 900 at 899 mV. -/
theorem press_rule_witness :
    (dt_sensor_wf ⟨0, 3, 500, 900, 50, false⟩ ∧
      (⟨0, 3, 500, 900, 50, false⟩ : dt_sensor_entry).reported_state = false ∧ (0 : Int) ≤ 899) ∧
    (((sensor_sample_handler_avg ⟨0, 3, 500, 900, 50, false⟩ 899).1.reported_state = true ∧
        actuation_events (sensor_sample_handler_avg ⟨0, 3, 500, 900, 50, false⟩ 899).2
          = [((⟨0, 3, 500, 900, 50, false⟩ : dt_sensor_entry).key_id, true)]) ↔
      ((⟨0, 3, 500, 900, 50, false⟩ : dt_sensor_entry).threshold_mv : Int) ≤ 899) ∧
    ((899 : Int) < ((⟨0, 3, 500, 900, 50, false⟩ : dt_sensor_entry).threshold_mv : Int) →
      (sensor_sample_handler_avg ⟨0, 3, 500, 900, 50, false⟩ 899).1.reported_state = false ∧
      actuation_events (sensor_sample_handler_avg ⟨0, 3, 500, 900, 50, false⟩ 899).2 = []) :=
  ⟨by decide,
   press_rule ⟨0, 3, 500, 900, 50, false⟩ 899 (by decide) (by decide) (by decide)⟩

/-- C4: every sensor in a state the driver keeps it in has `hyst_mv > 0`, and
for every such sensor, in either state, and every averaged voltage `v`, after
one handler cycle at `v` any number `n` of further cycles at `v` leaves the
whole sensor, `reported_state` included, as the first cycle left it, and the
next cycle at `v` hands no event to `hall_actuation_handle_event`. -/
theorem actuator_idempotent (s : dt_sensor_entry) (v : Int) (n : Nat) (hwf : dt_sensor_wf s) :
    0 < s.hyst_mv ∧
    iterate_handler (sensor_sample_handler_avg s v).1 v n = (sensor_sample_handler_avg s v).1 ∧
    actuation_events
      (sensor_sample_handler_avg (iterate_handler (sensor_sample_handler_avg s v).1 v n) v).2
      = [] :=
  ⟨(dt_sensor_wf_range s hwf).2.2,
   actuator_idempotent_of_int_range s v n (dt_sensor_wf_range s hwf).2.2
     (dt_sensor_wf_range s hwf).1 (dt_sensor_wf_range s hwf).2.1⟩

/-- Witness of C4: threshold 900, hysteresis 50, pressed by 950 mV and fed
950 mV three more times. -/
theorem actuator_idempotent_witness :
    dt_sensor_wf ⟨0, 0, 500, 900, 50, false⟩ ∧
    iterate_handler (sensor_sample_handler_avg ⟨0, 0, 500, 900, 50, false⟩ 950).1 950 3
      = (sensor_sample_handler_avg ⟨0, 0, 500, 900, 50, false⟩ 950).1 ∧
    actuation_events
      (sensor_sample_handler_avg
        (iterate_handler (sensor_sample_handler_avg ⟨0, 0, 500, 900, 50, false⟩ 950).1 950 3)
        950).2 = [] :=
  ⟨by decide, (actuator_idempotent ⟨0, 0, 500, 900, 50, false⟩ 950 3 (by decide)).2⟩

/-! ## The sampler -/

theorem tdiv_4095_bounds (x : Int) (h1 : -101376000 ≤ x) (h2 : x ≤ 108131100) :
    -24756 ≤ Int.tdiv x 4095 ∧ Int.tdiv x 4095 ≤ 26405 := by
  rcases le_or_lt 0 x with h | h
  · rw [Int.tdiv_eq_ediv h (by norm_num)]; omega
  · have e : x = -(-x) := by omega
    rw [e, Int.neg_tdiv, Int.tdiv_eq_ediv (by omega) (by norm_num)]; omega

theorem tdiv_8_bounds (x : Int) (h1 : -198048 ≤ x) (h2 : x ≤ 211240) :
    -24756 ≤ Int.tdiv x 8 ∧ Int.tdiv x 8 ≤ 26405 := by
  rcases le_or_lt 0 x with h | h
  · rw [Int.tdiv_eq_ediv h (by norm_num)]; omega
  · have e : x = -(-x) := by omega
    rw [e, Int.neg_tdiv, Int.tdiv_eq_ediv (by omega) (by norm_num)]; omega

theorem spec_reading_mv_bounds (r : Int) (h : isInt16 r) :
    -24756 ≤ spec_reading_mv r ∧ spec_reading_mv r ≤ 26405 := by
  obtain ⟨h1, h2⟩ := h
  unfold spec_reading_mv spec_unsigned
  have e : ((2 : Int) ^ 12 - 1) = 4095 := by norm_num
  rw [e]
  apply tdiv_4095_bounds <;> split_ifs <;> norm_num <;> omega

/-- On an `int16_t` reading no step of `raw_to_mv` overflows, and its value is
the one the specification words. -/
theorem raw_to_mv_eq_spec (r : Int) (h : isInt16 r) :
    raw_to_mv r ADC_RESOLUTION = spec_reading_mv r := by
  have hb := spec_reading_mv_bounds r h
  obtain ⟨h1, h2⟩ := h
  have key : (if r < 0 then wrap32 (r + 2 ^ (ADC_RESOLUTION - 1)) else r) = spec_unsigned r := by
    unfold spec_unsigned ADC_RESOLUTION
    by_cases hr : r < 0
    · have hn : ¬ r ≥ 0 := by omega
      rw [if_pos hr, if_neg hn, wrap32_of_range] <;> norm_num <;> omega
    · have hn : r ≥ 0 := by omega
      rw [if_neg hr, if_pos hn]
  have hu : -30720 ≤ spec_unsigned r ∧ spec_unsigned r ≤ 32767 := by
    unfold spec_unsigned; split_ifs <;> norm_num <;> omega
  unfold raw_to_mv
  simp only [key]
  have hm : wrap32 (spec_unsigned r * VREF_MV) = spec_unsigned r * 3300 := by
    unfold VREF_MV
    apply wrap32_of_range <;> omega
  rw [hm]
  show wrap32 (Int.tdiv (spec_unsigned r * 3300) (2 ^ 12 - 1)) = spec_reading_mv r
  have e : Int.tdiv (spec_unsigned r * 3300) (2 ^ 12 - 1) = spec_reading_mv r := rfl
  rw [e]
  apply wrap32_of_range <;> omega

/-- A batch of 8 successful `int16_t` readings runs the loop to its end; the
result is the truncated mean, and it lies between -24756 and 26405. -/
theorem sample_average_ok (adc : Nat → AdcOutcome)
    (hok : ∀ i, i < 8 → (adc i).rc = 0 ∧ isInt16 (adc i).raw_buf) :
    sample_average_mv adc =
      spec_sample_mean [(adc 0).raw_buf, (adc 1).raw_buf, (adc 2).raw_buf, (adc 3).raw_buf,
        (adc 4).raw_buf, (adc 5).raw_buf, (adc 6).raw_buf, (adc 7).raw_buf] ∧
    -24756 ≤ sample_average_mv adc ∧ sample_average_mv adc ≤ 26405 := by
  obtain ⟨c0, r0⟩ := hok 0 (by norm_num)
  obtain ⟨c1, r1⟩ := hok 1 (by norm_num)
  obtain ⟨c2, r2⟩ := hok 2 (by norm_num)
  obtain ⟨c3, r3⟩ := hok 3 (by norm_num)
  obtain ⟨c4, r4⟩ := hok 4 (by norm_num)
  obtain ⟨c5, r5⟩ := hok 5 (by norm_num)
  obtain ⟨c6, r6⟩ := hok 6 (by norm_num)
  obtain ⟨c7, r7⟩ := hok 7 (by norm_num)
  have b0 := spec_reading_mv_bounds _ r0
  have b1 := spec_reading_mv_bounds _ r1
  have b2 := spec_reading_mv_bounds _ r2
  have b3 := spec_reading_mv_bounds _ r3
  have b4 := spec_reading_mv_bounds _ r4
  have b5 := spec_reading_mv_bounds _ r5
  have b6 := spec_reading_mv_bounds _ r6
  have b7 := spec_reading_mv_bounds _ r7
  have hsum : sample_average_mv adc =
      Int.tdiv (spec_reading_mv (adc 0).raw_buf + (spec_reading_mv (adc 1).raw_buf +
        (spec_reading_mv (adc 2).raw_buf + (spec_reading_mv (adc 3).raw_buf +
        (spec_reading_mv (adc 4).raw_buf + (spec_reading_mv (adc 5).raw_buf +
        (spec_reading_mv (adc 6).raw_buf + (spec_reading_mv (adc 7).raw_buf + 0)))))))) 8 := by
    simp only [sample_average_mv, CONFIG_HALL_ADC_SAMPLES, sample_average_loop, adc_sample_once,
      c0, c1, c2, c3, c4, c5, c6, c7, ne_eq, not_true_eq_false, if_false,
      raw_to_mv_eq_spec _ r0, raw_to_mv_eq_spec _ r1, raw_to_mv_eq_spec _ r2,
      raw_to_mv_eq_spec _ r3, raw_to_mv_eq_spec _ r4, raw_to_mv_eq_spec _ r5,
      raw_to_mv_eq_spec _ r6, raw_to_mv_eq_spec _ r7]
    congr 1
    simp only [wrap32]
    omega
  refine ⟨?_, ?_⟩
  · rw [hsum]; rfl
  · rw [hsum]
    apply tdiv_8_bounds <;> omega

/-- The loop returns the code of the first failing read. -/
theorem sample_average_loop_first_failure (adc : Nat → AdcOutcome) (k : Nat) :
    ∀ (n i : Nat) (sum : Int), k < n → (∀ j, j < k → (adc (i + j)).rc = 0) →
      (adc (i + k)).rc ≠ 0 → sample_average_loop adc n i sum = (adc (i + k)).rc := by
  induction k with
  | zero =>
    intro n i sum hn _ hfail
    obtain ⟨m, rfl⟩ : ∃ m, n = m + 1 := ⟨n - 1, by omega⟩
    have hf : (adc i).rc ≠ 0 := by simpa using hfail
    simp [sample_average_loop, adc_sample_once, hf]
  | succ k ih =>
    intro n i sum hn hprev hfail
    obtain ⟨m, rfl⟩ : ∃ m, n = m + 1 := ⟨n - 1, by omega⟩
    have h0 : (adc i).rc = 0 := by simpa using hprev 0 (by omega)
    have hstep := ih m (i + 1) (wrap32 (sum + raw_to_mv (adc i).raw_buf ADC_RESOLUTION))
      (by omega)
      (fun j hj => by have := hprev (j + 1) (by omega); rwa [show i + 1 + j = i + (j + 1) by omega])
      (by rwa [show i + 1 + k = i + (k + 1) by omega])
    rw [show i + (k + 1) = i + 1 + k by omega]
    rw [← hstep]
    simp [sample_average_loop, adc_sample_once, h0]

/-- A batch whose first failing read returns a negative code is a failure for
the handler: the sensor is unchanged and the only call is the 50 ms
reschedule. -/
theorem acquisition_failure_negative_code (s : dt_sensor_entry) (adc : Nat → AdcOutcome)
    (k : Nat) (hk : k < 8) (hprev : ∀ j, j < k → (adc j).rc = 0) (hfail : (adc k).rc < 0) :
    sensor_sample_handler s adc = (s, [Call.work_schedule 50]) := by
  have hl := sample_average_loop_first_failure adc k 8 0 0 hk
    (fun j hj => by simpa using hprev j hj) (by simp; omega)
  have hv : sample_average_mv adc = (adc k).rc := by
    unfold sample_average_mv CONFIG_HALL_ADC_SAMPLES
    simpa using hl
  unfold sensor_sample_handler
  rw [hv]
  exact handler_failure s _ hfail

/-! ## The driver keeps its sensors in range -/

/-- When every read returns 0 or a negative code, the loop either returns a
negative code or has found every read it made successful. -/
theorem sample_average_loop_api (adc : Nat → AdcOutcome) (n : Nat) :
    ∀ (i : Nat) (sum : Int), (∀ j, j < i + n → (adc j).rc ≤ 0) →
      sample_average_loop adc n i sum < 0 ∨ (∀ j, j < n → (adc (i + j)).rc = 0) := by
  induction n with
  | zero => intro i sum _; right; intro j hj; omega
  | succ n ih =>
    intro i sum hapi
    by_cases h0 : (adc i).rc = 0
    · have hstep : sample_average_loop adc (n + 1) i sum
          = sample_average_loop adc n (i + 1)
              (wrap32 (sum + raw_to_mv (adc i).raw_buf ADC_RESOLUTION)) := by
        simp [sample_average_loop, adc_sample_once, h0]
      rw [hstep]
      rcases ih (i + 1) _ (fun j hj => hapi j (by omega)) with h | h
      · left; exact h
      · right
        intro j hj
        cases j with
        | zero => simpa using h0
        | succ j =>
          have := h j (by omega)
          rwa [show i + 1 + j = i + (j + 1) by omega] at this
    · left
      have hle := hapi i (by omega)
      have hstep : sample_average_loop adc (n + 1) i sum = (adc i).rc := by
        simp [sample_average_loop, adc_sample_once, h0]
      rw [hstep]
      omega

/-- A batch read through the ADC API averages at most 26405 mV, a failure
being negative. -/
theorem sample_average_api_le (adc : Nat → AdcOutcome)
    (hapi : ∀ i, i < 8 → adc_api (adc i)) : sample_average_mv adc ≤ 26405 := by
  rcases sample_average_loop_api adc 8 0 0 (fun j hj => (hapi j (by omega)).1) with h | h
  · have : sample_average_mv adc < 0 := h
    omega
  · exact (sample_average_ok adc
      (fun i hi => ⟨by simpa using h i hi, (hapi i hi).2⟩)).2.2

theorem dt_sensor_wf_init (channel_id : Nat) (key_id : Int) :
    dt_sensor_wf (dt_init_entry channel_id key_id) := by
  unfold dt_sensor_wf dt_init_entry
  exact ⟨rfl, Nat.zero_le _⟩

/-- Boot calibration through the ADC API keeps a sensor in the range of the
driver. -/
theorem dt_sensor_wf_calibrate (s : dt_sensor_entry) (adc : Nat → AdcOutcome)
    (hapi : ∀ i, i < 8 → adc_api (adc i)) (hwf : dt_sensor_wf s) :
    dt_sensor_wf (dt_calibrate s adc) := by
  have hle := sample_average_api_le adc hapi
  unfold dt_calibrate
  generalize sample_average_mv adc = b at hle ⊢
  unfold dt_calibrate_avg
  by_cases hgt : b > 0
  · have e1 : ((u32 b : Nat) : Int) = b := by rw [u32_cast]; omega
    have e2 : ((u32 (b + 800) : Nat) : Int) = b + 800 := by rw [u32_cast]; omega
    have e3 : u32 ((b + 800) - b) = 800 := by unfold u32; omega
    have e4 : ((u32 (b + ((800 / 2 : Nat) : Int)) : Nat) : Int) = b + 400 := by
      rw [u32_cast]; omega
    simp only [if_pos hgt, e1, e2, e3, dt_sensor_wf]
    refine ⟨trivial, ?_⟩
    omega
  · rw [if_neg hgt]; exact hwf

theorem dt_init_loop_wf (dt : List (Option DtNode)) (n : Nat) :
    ∀ (i : Nat) (sensors : List dt_sensor_entry), (∀ s ∈ sensors, dt_sensor_wf s) →
      ∀ s ∈ dt_init_loop dt n i sensors, dt_sensor_wf s := by
  induction n with
  | zero => intro i sensors h; exact h
  | succ n ih =>
    intro i sensors h
    have hgrow : ∀ (ch : Nat) (k : Int), ∀ s ∈ sensors ++ [dt_init_entry ch k],
        dt_sensor_wf s := by
      intro ch k s hs
      rw [List.mem_append] at hs
      rcases hs with hs | hs
      · exact h s hs
      · simp only [List.mem_singleton] at hs
        subst hs
        exact dt_sensor_wf_init ch k
    rw [dt_init_loop]
    cases hnode : dt_node dt i with
    | none => exact ih _ _ h
    | some node =>
      simp only
      split_ifs
      · exact ih _ _ h
      · exact h
      · exact ih _ _ (hgrow 0 _)
      · exact ih _ _ (hgrow 5 _)
      · exact h

theorem dt_calibrate_loop_wf (adcs : Nat → Nat → AdcOutcome)
    (hapi : ∀ i j, j < 8 → adc_api (adcs i j)) (sensors : List dt_sensor_entry) :
    ∀ i : Nat, (∀ s ∈ sensors, dt_sensor_wf s) →
      ∀ s ∈ dt_calibrate_loop adcs i sensors, dt_sensor_wf s := by
  induction sensors with
  | nil => intro i _ s hs; simp [dt_calibrate_loop] at hs
  | cons x xs ih =>
    intro i h s hs
    simp only [dt_calibrate_loop, List.mem_cons] at hs
    rcases hs with hs | hs
    · subst hs
      exact dt_sensor_wf_calibrate x (adcs i) (hapi i) (h x (by simp))
    · exact ih (i + 1) (fun t ht => h t (by simp [ht])) s hs

/-- Every sensor that `dt_init_sensors` configures, with or without boot
calibration, is in the range of the driver when the ADC follows its API. -/
theorem dt_init_sensors_wf (adc_found : Bool) (dt : List (Option DtNode))
    (calibrate_on_boot : Bool) (adcs : Nat → Nat → AdcOutcome) (socd : socd_state)
    (b : dt_boot) (hapi : ∀ i j, j < 8 → adc_api (adcs i j))
    (hok : dt_init_sensors adc_found dt calibrate_on_boot adcs socd = Except.ok b) :
    ∀ s ∈ b.sensors, dt_sensor_wf s := by
  have hparsed := dt_init_loop_wf dt MAX_DT_SENSORS 0 [] (fun s hs => by simp at hs)
  unfold dt_init_sensors at hok
  simp only at hok
  split_ifs at hok with h1 h2 h3
  · have hb := Except.ok.inj hok
    subst hb
    exact dt_calibrate_loop_wf adcs hapi _ 0 hparsed
  · have hb := Except.ok.inj hok
    subst hb
    exact hparsed

/-! ## Calibration and the sampler: claims -/

/-- C5 (amended): for every batch of 8 successful `int16_t` readings whose
average `b` is greater than 0, boot calibration leaves the sensor with
`baseline_mv = b`, `threshold_mv = b + 400` and `hyst_mv = 50`, so that
`threshold_mv > baseline_mv` and `threshold_mv - hyst_mv < threshold_mv`. -/
theorem calibration_result (s : dt_sensor_entry) (adc : Nat → AdcOutcome)
    (hok : ∀ i, i < 8 → (adc i).rc = 0 ∧ isInt16 (adc i).raw_buf)
    (hpos : 0 < sample_average_mv adc) :
    ((dt_calibrate s adc).baseline_mv : Int) = sample_average_mv adc ∧
    ((dt_calibrate s adc).threshold_mv : Int) = sample_average_mv adc + 400 ∧
    (dt_calibrate s adc).hyst_mv = 50 ∧
    (dt_calibrate s adc).baseline_mv < (dt_calibrate s adc).threshold_mv ∧
    ((dt_calibrate s adc).threshold_mv : Int) - ((dt_calibrate s adc).hyst_mv : Int)
      < ((dt_calibrate s adc).threshold_mv : Int) := by
  have hb := (sample_average_ok adc hok).2
  unfold dt_calibrate
  generalize sample_average_mv adc = b at hpos hb ⊢
  have hgt : b > 0 := hpos
  have e1 : ((u32 b : Nat) : Int) = b := by rw [u32_cast]; omega
  have e2 : ((u32 (b + 800) : Nat) : Int) = b + 800 := by rw [u32_cast]; omega
  have e3 : u32 ((b + 800) - b) = 800 := by unfold u32; omega
  have e4 : ((u32 (b + ((800 / 2 : Nat) : Int)) : Nat) : Int) = b + 400 := by
    rw [u32_cast]; omega
  simp only [dt_calibrate_avg, if_pos hgt, e1, e2, e3, e4, CONFIG_HALL_ADC_HYST_MV]
  refine ⟨trivial, trivial, trivial, ?_, ?_⟩ <;> omega

/-- Witness of C5 (amended): eight readings of 620, which average 499 mV. -/
theorem calibration_result_witness :
    ((∀ i, i < 8 → ((fun _ => ⟨0, 620⟩ : Nat → AdcOutcome) i).rc = 0 ∧
        isInt16 ((fun _ => ⟨0, 620⟩ : Nat → AdcOutcome) i).raw_buf) ∧
      0 < sample_average_mv (fun _ => ⟨0, 620⟩)) ∧
    ((dt_calibrate (dt_init_entry 0 0) (fun _ => ⟨0, 620⟩)).threshold_mv : Int)
      = sample_average_mv (fun _ => ⟨0, 620⟩) + 400 :=
  ⟨⟨fun _ _ => ⟨rfl, show isInt16 620 by decide⟩, by decide⟩,
   (calibration_result (dt_init_entry 0 0) (fun _ => ⟨0, 620⟩)
      (fun _ _ => ⟨rfl, show isInt16 620 by decide⟩) (by decide)).2.1⟩

/-- Counterexample to C5 as stated: a batch of eight successful readings of 0
averages 0 mV, and calibration then leaves the sensor as it was, with
`threshold_mv = 0` instead of 0 + 400, not above `baseline_mv`. -/
theorem calibration_zero_counterexample :
    (∀ i, i < 8 → ((fun _ => ⟨0, 0⟩ : Nat → AdcOutcome) i).rc = 0) ∧
    sample_average_mv (fun _ => ⟨0, 0⟩) = 0 ∧
    dt_calibrate (dt_init_entry 0 0) (fun _ => ⟨0, 0⟩) = dt_init_entry 0 0 ∧
    (dt_calibrate (dt_init_entry 0 0) (fun _ => ⟨0, 0⟩)).threshold_mv = 0 ∧
    ¬ ((dt_calibrate (dt_init_entry 0 0) (fun _ => ⟨0, 0⟩)).baseline_mv
        < (dt_calibrate (dt_init_entry 0 0) (fun _ => ⟨0, 0⟩)).threshold_mv) :=
  ⟨fun _ _ => rfl, by decide, by decide, by decide, by decide⟩

/-- C6: for every sensor state and every averaging batch read through the ADC
API (each `adc_read` returns 0 or a negative errno) in which at least one of
the 8 reads fails (returns a non-zero code), the handler leaves the sensor,
`reported_state` included, as it was, hands no press or release event over,
makes no call to the resolver or to the rapid-trigger module, and reschedules
the cycle after the 50 ms backoff: its only call is that reschedule. -/
theorem acquisition_failure_preserves_state (s : dt_sensor_entry) (adc : Nat → AdcOutcome)
    (hapi : ∀ i, i < 8 → (adc i).rc ≤ 0) (hfail : ∃ i, i < 8 ∧ (adc i).rc ≠ 0) :
    sensor_sample_handler s adc = (s, [Call.work_schedule 50]) ∧
    (sensor_sample_handler s adc).1.reported_state = s.reported_state ∧
    actuation_events (sensor_sample_handler s adc).2 = [] ∧
    deliveries (sensor_sample_handler s adc).2 = [] ∧
    scheduled_delay (sensor_sample_handler s adc).2 = 50 := by
  have hk := Nat.find_spec hfail
  have hmin : ∀ j, j < Nat.find hfail → (adc j).rc = 0 := by
    intro j hj
    have hnot := Nat.find_min hfail hj
    by_contra hne
    exact hnot ⟨by omega, hne⟩
  have hneg : (adc (Nat.find hfail)).rc < 0 := by
    have := hapi _ hk.1
    have := hk.2
    omega
  have e := acquisition_failure_negative_code s adc (Nat.find hfail) hk.1 hmin hneg
  rw [e]
  exact ⟨rfl, rfl, rfl, rfl, rfl⟩

/-- Witness of C6: a Pressed sensor, threshold 900, whose fourth read fails
with code -5 after three readings of 1200. -/
theorem acquisition_failure_preserves_state_witness :
    ((∀ i, i < 8 →
        ((fun i => if i = 3 then ⟨-5, 0⟩ else ⟨0, 1200⟩ : Nat → AdcOutcome) i).rc ≤ 0) ∧
      ∃ i, i < 8 ∧
        ((fun i => if i = 3 then ⟨-5, 0⟩ else ⟨0, 1200⟩ : Nat → AdcOutcome) i).rc ≠ 0) ∧
    sensor_sample_handler ⟨0, 0, 500, 900, 50, true⟩
        (fun i => if i = 3 then ⟨-5, 0⟩ else ⟨0, 1200⟩)
      = (⟨0, 0, 500, 900, 50, true⟩, [Call.work_schedule 50]) :=
  ⟨⟨fun i hi => by interval_cases i <;> decide, ⟨3, by decide, by decide⟩⟩,
   (acquisition_failure_preserves_state ⟨0, 0, 500, 900, 50, true⟩
      (fun i => if i = 3 then ⟨-5, 0⟩ else ⟨0, 1200⟩)
      (fun i hi => by interval_cases i <;> decide) ⟨3, by decide, by decide⟩).1⟩

/-- C7: for every batch of 8 successful `int16_t` readings, each reading
converts to `u * 3300 / (2^12 - 1)` with `u` the reading itself when it is
non-negative and the reading plus 2^11 when it is negative, and
`sample_average_mv` returns the mean of the eight values, both divisions
truncating. -/
theorem sampler_value (adc : Nat → AdcOutcome)
    (hok : ∀ i, i < 8 → (adc i).rc = 0 ∧ isInt16 (adc i).raw_buf) :
    (∀ i, i < 8 → raw_to_mv (adc i).raw_buf ADC_RESOLUTION = spec_reading_mv (adc i).raw_buf) ∧
    sample_average_mv adc =
      spec_sample_mean [(adc 0).raw_buf, (adc 1).raw_buf, (adc 2).raw_buf, (adc 3).raw_buf,
        (adc 4).raw_buf, (adc 5).raw_buf, (adc 6).raw_buf, (adc 7).raw_buf] :=
  ⟨fun i hi => raw_to_mv_eq_spec _ (hok i hi).2, (sample_average_ok adc hok).1⟩

/-- Witness of C7: readings -2049, 0, 125, 620, 1000, 2047, 4095 and -1. -/
theorem sampler_value_witness :
    (∀ i, i < 8 →
      ((fun i => ⟨0, [-2049, 0, 125, 620, 1000, 2047, 4095, -1].getD i 0⟩ :
          Nat → AdcOutcome) i).rc = 0 ∧
      isInt16 ((fun i => ⟨0, [-2049, 0, 125, 620, 1000, 2047, 4095, -1].getD i 0⟩ :
          Nat → AdcOutcome) i).raw_buf) ∧
    sample_average_mv (fun i => ⟨0, [-2049, 0, 125, 620, 1000, 2047, 4095, -1].getD i 0⟩)
      = spec_sample_mean [-2049, 0, 125, 620, 1000, 2047, 4095, -1] :=
  ⟨fun i hi => ⟨rfl, by interval_cases i <;> decide⟩,
   (sampler_value (fun i => ⟨0, [-2049, 0, 125, 620, 1000, 2047, 4095, -1].getD i 0⟩)
      (fun i hi => ⟨rfl, by interval_cases i <;> decide⟩)).2⟩

/-! ## The resolver: invariant and step lemmas -/

theorem clear_sensor_state_length (n : Nat) :
    ∀ (xs : List Bool) (i : Nat), (clear_sensor_state xs n i).length = xs.length := by
  induction n with
  | zero => intro xs i; rfl
  | succ n ih => intro xs i; rw [clear_sensor_state, ih]; simp

theorem socd_wf_boot (policy : Int) : socd_wf (socd_boot policy) := by
  simp [socd_wf, socd_boot, MAX_HALL_SENSORS]

/-- The clamp of `hall_socd_register_sensor_count` establishes the invariant. -/
theorem socd_wf_register_sensor_count (st : socd_state) (count : Int)
    (hlen : st.sensor_state.length = MAX_HALL_SENSORS) :
    socd_wf (hall_socd_register_sensor_count st count) := by
  unfold socd_wf hall_socd_register_sensor_count
  refine ⟨?_, ?_⟩
  · simp only [clear_sensor_state_length]; exact hlen
  · simp only; split_ifs <;> omega

/-- Every event keeps the invariant and `sensor_count`. -/
theorem socd_wf_handle_event (st : socd_state) (k : Int) (p : Bool) (hwf : socd_wf st) :
    socd_wf (hall_actuation_handle_event st k p).1 ∧
    (hall_actuation_handle_event st k p).1.sensor_count = st.sensor_count := by
  unfold hall_actuation_handle_event hall_socd_register_press hall_socd_register_release
  unfold socd_wf at *
  split_ifs <;> simp [hwf.1, hwf.2]

theorem register_press_in_range (st : socd_state) (k : Int) (hwf : socd_wf st)
    (h0 : 0 ≤ k) (h1 : k < st.sensor_count) :
    hall_socd_register_press st k =
      ({ st with sensor_state := st.sensor_state.set k.toNat true, last_pressed_id := k },
        [(k.toNat, true)]) := by
  obtain ⟨hlen, hcnt⟩ := hwf
  unfold MAX_HALL_SENSORS at hlen hcnt
  have hg : ¬ (k < 0 ∨ k ≥ st.sensor_count) := by omega
  have hk : k.toNat < st.sensor_state.length := by omega
  have hu : u16 k = k.toNat := u16_small k h0 (by omega)
  simp [hall_socd_register_press, hg, emit_state, hu, List.getD, hk]

theorem register_release_in_range (st : socd_state) (k : Int) (hwf : socd_wf st)
    (h0 : 0 ≤ k) (h1 : k < st.sensor_count) :
    hall_socd_register_release st k =
      ({ st with sensor_state := st.sensor_state.set k.toNat false }, [(k.toNat, false)]) := by
  obtain ⟨hlen, hcnt⟩ := hwf
  unfold MAX_HALL_SENSORS at hlen hcnt
  have hg : ¬ (k < 0 ∨ k ≥ st.sensor_count) := by omega
  have hk : k.toNat < st.sensor_state.length := by omega
  have hu : u16 k = k.toNat := u16_small k h0 (by omega)
  simp [hall_socd_register_release, hg, emit_state, hu, List.getD, hk]

/-! ## The resolver: claims -/

/-- C8: for every resolver state and every `key_id` with `key_id < 0` or
`key_id >= sensor_count`, `hall_socd_register_press` and
`hall_socd_register_release` return the state as it was (every `sensor_state`
entry and `last_pressed_id` included) and emit no key-position event. -/
theorem socd_out_of_range_dropped (st : socd_state) (key_id : Int)
    (h : key_id < 0 ∨ key_id ≥ st.sensor_count) :
    hall_socd_register_press st key_id = (st, []) ∧
    hall_socd_register_release st key_id = (st, []) := by
  simp [hall_socd_register_press, hall_socd_register_release, h]

/-- Witness of C8: key 5 with two sensors registered. -/
theorem socd_out_of_range_dropped_witness :
    ((5 : Int) < 0 ∨ (5 : Int) ≥ (hall_socd_register_sensor_count (socd_boot 0) 2).sensor_count) ∧
    hall_socd_register_press (hall_socd_register_sensor_count (socd_boot 0) 2) 5
      = (hall_socd_register_sensor_count (socd_boot 0) 2, []) ∧
    hall_socd_register_release (hall_socd_register_sensor_count (socd_boot 0) 2) 5
      = (hall_socd_register_sensor_count (socd_boot 0) 2, []) :=
  ⟨by decide, socd_out_of_range_dropped (hall_socd_register_sensor_count (socd_boot 0) 2) 5
    (by decide)⟩

/-- C9: in a state of the module (32 table entries, `sensor_count <= 32`) and
for `key_id` in `[0, sensor_count)`, `hall_socd_register_press` sets
`sensor_state[key_id] = true` and `last_pressed_id = key_id` and emits exactly
the event `(key_id, true)`; `hall_socd_register_release` sets
`sensor_state[key_id] = false`, keeps `last_pressed_id` and emits exactly
`(key_id, false)`; both keep `sensor_state[j]` for every `j` other than
`key_id`. -/
theorem socd_in_range_update (st : socd_state) (key_id : Int) (hwf : socd_wf st)
    (h0 : 0 ≤ key_id) (h1 : key_id < st.sensor_count) :
    ((hall_socd_register_press st key_id).1.sensor_state[key_id.toNat]? = some true ∧
      (hall_socd_register_press st key_id).1.last_pressed_id = key_id ∧
      (hall_socd_register_press st key_id).2 = [(key_id.toNat, true)] ∧
      ∀ j : Nat, j ≠ key_id.toNat →
        (hall_socd_register_press st key_id).1.sensor_state[j]? = st.sensor_state[j]?) ∧
    ((hall_socd_register_release st key_id).1.sensor_state[key_id.toNat]? = some false ∧
      (hall_socd_register_release st key_id).1.last_pressed_id = st.last_pressed_id ∧
      (hall_socd_register_release st key_id).2 = [(key_id.toNat, false)] ∧
      ∀ j : Nat, j ≠ key_id.toNat →
        (hall_socd_register_release st key_id).1.sensor_state[j]? = st.sensor_state[j]?) := by
  obtain ⟨hlen, hcnt⟩ := hwf
  unfold MAX_HALL_SENSORS at hlen hcnt
  have hg : ¬ (key_id < 0 ∨ key_id ≥ st.sensor_count) := by omega
  have hk : key_id.toNat < st.sensor_state.length := by omega
  have hu : u16 key_id = key_id.toNat := u16_small key_id h0 (by omega)
  simp only [hall_socd_register_press, hall_socd_register_release, hg, if_false, emit_state, hu]
  refine ⟨⟨?_, trivial, ?_, ?_⟩, ⟨?_, trivial, ?_, ?_⟩⟩
  · simp [hk]
  · simp [List.getD, hk]
  · intro j hj; simp [List.getElem?_set, Ne.symm hj]
  · simp [hk]
  · simp [List.getD, hk]
  · intro j hj; simp [List.getElem?_set, Ne.symm hj]

/-- Witness of C9: key 1 with two sensors registered. -/
theorem socd_in_range_update_witness :
    (socd_wf (hall_socd_register_sensor_count (socd_boot 0) 2) ∧ (0 : Int) ≤ 1 ∧
      (1 : Int) < (hall_socd_register_sensor_count (socd_boot 0) 2).sensor_count) ∧
    (hall_socd_register_press (hall_socd_register_sensor_count (socd_boot 0) 2) 1).2
      = [((1 : Int).toNat, true)] ∧
    (hall_socd_register_release (hall_socd_register_sensor_count (socd_boot 0) 2) 1).2
      = [((1 : Int).toNat, false)] :=
  ⟨by decide,
   (socd_in_range_update (hall_socd_register_sensor_count (socd_boot 0) 2) 1
      (by decide) (by decide) (by decide)).1.2.2.1,
   (socd_in_range_update (hall_socd_register_sensor_count (socd_boot 0) 2) 1
      (by decide) (by decide) (by decide)).2.2.2.1⟩

/-- C10 (amended): in a state of the module, whatever the policy (Neutral
included), for two distinct sensors A and B in `[0, sensor_count)` the sequence
press A, press B, release A makes the resolver emit A=pressed, then B=pressed,
then A=released, three events in all, each the own state of the sensor of the
event; nothing is cancelled, and B is left held in `sensor_state`. -/
theorem socd_pair_pass_through (st : socd_state) (a b : Int) (hwf : socd_wf st)
    (ha0 : 0 ≤ a) (ha1 : a < st.sensor_count) (hb0 : 0 ≤ b) (hb1 : b < st.sensor_count)
    (hab : a ≠ b) :
    (socd_run st [(a, true), (b, true), (a, false)]).2
      = [(a.toNat, true), (b.toNat, true), (a.toNat, false)] ∧
    (socd_run st [(a, true), (b, true), (a, false)]).1.sensor_state[a.toNat]? = some false ∧
    (socd_run st [(a, true), (b, true), (a, false)]).1.sensor_state[b.toNat]? = some true := by
  have w1 := socd_wf_handle_event st a true hwf
  have e1 : hall_actuation_handle_event st a true = _ := register_press_in_range st a hwf ha0 ha1
  rw [e1] at w1
  have e2 : hall_actuation_handle_event _ b true = _ :=
    register_press_in_range _ b w1.1 hb0 (by rw [w1.2]; exact hb1)
  have w2 := socd_wf_handle_event _ b true w1.1
  rw [e2] at w2
  have e3 : hall_actuation_handle_event _ a false = _ :=
    register_release_in_range _ a w2.1 ha0 (by rw [w2.2, w1.2]; exact ha1)
  obtain ⟨hlen, hcnt⟩ := hwf
  unfold MAX_HALL_SENSORS at hlen hcnt
  have hka : a.toNat < st.sensor_state.length := by omega
  have hkb : b.toNat < st.sensor_state.length := by omega
  have hne : a.toNat ≠ b.toNat := by omega
  simp only [socd_run, e1, e2, e3]
  refine ⟨by simp, ?_, ?_⟩
  · simp [hka]
  · simp [List.getElem?_set, hkb, hne, Ne.symm hne]

/-- Witness of C10 (amended): sensors 0 and 1 of two, policy 0 (neutral). -/
theorem socd_pair_pass_through_witness :
    (socd_wf (hall_socd_register_sensor_count (socd_boot 0) 2) ∧
      (0 : Int) ≤ 0 ∧ (0 : Int) < (hall_socd_register_sensor_count (socd_boot 0) 2).sensor_count ∧
      (0 : Int) ≤ 1 ∧ (1 : Int) < (hall_socd_register_sensor_count (socd_boot 0) 2).sensor_count ∧
      (0 : Int) ≠ 1) ∧
    (socd_run (hall_socd_register_sensor_count (socd_boot 0) 2)
        [(0, true), (1, true), (0, false)]).2
      = [((0 : Int).toNat, true), ((1 : Int).toNat, true), ((0 : Int).toNat, false)] :=
  ⟨by decide,
   (socd_pair_pass_through (hall_socd_register_sensor_count (socd_boot 0) 2) 0 1
      (by decide) (by decide) (by decide) (by decide) (by decide) (by decide)).1⟩

/-- Counterexample to C10 as stated: with two sensors registered and policy 0
(neutral), press 0, press 1, release 0 emits 0=pressed, 1=pressed, 0=released
and not 0=pressed, 0=released, 1=released, 1=pressed. -/
theorem socd_neutral_pair_counterexample :
    (hall_socd_register_sensor_count (socd_boot 0) 2).policy = 0 ∧
    (socd_run (hall_socd_register_sensor_count (socd_boot 0) 2)
        [(0, true), (1, true), (0, false)]).2
      = [(0, true), (1, true), (0, false)] ∧
    (socd_run (hall_socd_register_sensor_count (socd_boot 0) 2)
        [(0, true), (1, true), (0, false)]).2
      ≠ [(0, true), (0, false), (1, false), (1, true)] := by
  decide

/-! ## The resolver: further claims -/

/-- C11 (amended): in a state of the module, whatever the policy
(LastPriority included), for two distinct sensors A and B in
`[0, sensor_count)` the sequence press A, press B, release B makes the resolver
emit A=pressed, then B=pressed, then B=released, three events in all; A is
never emitted released and is not emitted again when B is released; A stays
held in `sensor_state` and `last_pressed_id` is left at B. -/
theorem socd_last_priority_pass_through (st : socd_state) (a b : Int) (hwf : socd_wf st)
    (ha0 : 0 ≤ a) (ha1 : a < st.sensor_count) (hb0 : 0 ≤ b) (hb1 : b < st.sensor_count)
    (hab : a ≠ b) :
    (socd_run st [(a, true), (b, true), (b, false)]).2
      = [(a.toNat, true), (b.toNat, true), (b.toNat, false)] ∧
    (socd_run st [(a, true), (b, true), (b, false)]).1.sensor_state[a.toNat]? = some true ∧
    (socd_run st [(a, true), (b, true), (b, false)]).1.sensor_state[b.toNat]? = some false ∧
    (socd_run st [(a, true), (b, true), (b, false)]).1.last_pressed_id = b := by
  have w1 := socd_wf_handle_event st a true hwf
  have e1 : hall_actuation_handle_event st a true = _ := register_press_in_range st a hwf ha0 ha1
  rw [e1] at w1
  have e2 : hall_actuation_handle_event _ b true = _ :=
    register_press_in_range _ b w1.1 hb0 (by rw [w1.2]; exact hb1)
  have w2 := socd_wf_handle_event _ b true w1.1
  rw [e2] at w2
  have e3 : hall_actuation_handle_event _ b false = _ :=
    register_release_in_range _ b w2.1 hb0 (by rw [w2.2, w1.2]; exact hb1)
  obtain ⟨hlen, hcnt⟩ := hwf
  unfold MAX_HALL_SENSORS at hlen hcnt
  have hka : a.toNat < st.sensor_state.length := by omega
  have hkb : b.toNat < st.sensor_state.length := by omega
  have hne : a.toNat ≠ b.toNat := by omega
  simp only [socd_run, e1, e2, e3]
  refine ⟨by simp, ?_, ?_, trivial⟩
  · simp [List.getElem?_set, hka, hne, Ne.symm hne]
  · simp [hkb]

/-- Witness of C11 (amended): sensors 0 and 1 of two, policy 2 (last). -/
theorem socd_last_priority_pass_through_witness :
    (socd_wf (hall_socd_register_sensor_count (socd_boot 2) 2) ∧
      (0 : Int) ≤ 0 ∧ (0 : Int) < (hall_socd_register_sensor_count (socd_boot 2) 2).sensor_count ∧
      (0 : Int) ≤ 1 ∧ (1 : Int) < (hall_socd_register_sensor_count (socd_boot 2) 2).sensor_count ∧
      (0 : Int) ≠ 1) ∧
    (socd_run (hall_socd_register_sensor_count (socd_boot 2) 2)
        [(0, true), (1, true), (1, false)]).2
      = [((0 : Int).toNat, true), ((1 : Int).toNat, true), ((1 : Int).toNat, false)] :=
  ⟨by decide,
   (socd_last_priority_pass_through (hall_socd_register_sensor_count (socd_boot 2) 2) 0 1
      (by decide) (by decide) (by decide) (by decide) (by decide) (by decide)).1⟩

/-- Counterexample to C11 as stated: with two sensors registered and policy 2
(last), pressing 0 then 1 emits 0=pressed and 1=pressed and never 0=released,
and the release of 1 that follows emits 1=released only, not 0=pressed. -/
theorem socd_last_priority_counterexample :
    (hall_socd_register_sensor_count (socd_boot 2) 2).policy = 2 ∧
    (socd_run (hall_socd_register_sensor_count (socd_boot 2) 2) [(0, true), (1, true)]).2
      = [(0, true), (1, true)] ∧
    (0, false) ∉
      (socd_run (hall_socd_register_sensor_count (socd_boot 2) 2) [(0, true), (1, true)]).2 ∧
    (hall_actuation_handle_event
        (socd_run (hall_socd_register_sensor_count (socd_boot 2) 2) [(0, true), (1, true)]).1
        1 false).2 = [(1, false)] ∧
    (0, true) ∉
      (hall_actuation_handle_event
        (socd_run (hall_socd_register_sensor_count (socd_boot 2) 2) [(0, true), (1, true)]).1
        1 false).2 := by
  decide

/-- C20: for two states of the module with the same `sensor_count`, whatever
their `policy`, `last_pressed_id` and `sensor_state` entries,
`hall_socd_register_press(key_id)` emits the same events in both, and so does
`hall_socd_register_release(key_id)`: the one event `(key_id, pressed)` when
`key_id` is in `[0, sensor_count)` and none otherwise. -/
theorem socd_output_independent (st1 st2 : socd_state) (key_id : Int)
    (hwf1 : socd_wf st1) (hwf2 : socd_wf st2) (hcount : st1.sensor_count = st2.sensor_count) :
    (hall_socd_register_press st1 key_id).2 = (hall_socd_register_press st2 key_id).2 ∧
    (hall_socd_register_release st1 key_id).2 = (hall_socd_register_release st2 key_id).2 ∧
    (hall_socd_register_press st1 key_id).2
      = (if 0 ≤ key_id ∧ key_id < st1.sensor_count then [(key_id.toNat, true)] else []) ∧
    (hall_socd_register_release st1 key_id).2
      = (if 0 ≤ key_id ∧ key_id < st1.sensor_count then [(key_id.toNat, false)] else []) := by
  by_cases h : 0 ≤ key_id ∧ key_id < st1.sensor_count
  · obtain ⟨h0, h1⟩ := h
    have h2 : key_id < st2.sensor_count := by rw [← hcount]; exact h1
    rw [register_press_in_range st1 key_id hwf1 h0 h1,
      register_press_in_range st2 key_id hwf2 h0 h2,
      register_release_in_range st1 key_id hwf1 h0 h1,
      register_release_in_range st2 key_id hwf2 h0 h2]
    simp [h0, h1]
  · have g1 : key_id < 0 ∨ key_id ≥ st1.sensor_count := by omega
    have g2 : key_id < 0 ∨ key_id ≥ st2.sensor_count := by rw [← hcount]; exact g1
    simp [hall_socd_register_press, hall_socd_register_release, g1, g2, h]

/-- Witness of C20: two states with two sensors that differ in policy,
`last_pressed_id` and every table entry. -/
theorem socd_output_independent_witness :
    (socd_wf (hall_socd_register_sensor_count (socd_boot 0) 2) ∧
      socd_wf ⟨List.replicate 32 true, 2, 2, 1⟩ ∧
      (hall_socd_register_sensor_count (socd_boot 0) 2).sensor_count
        = (⟨List.replicate 32 true, 2, 2, 1⟩ : socd_state).sensor_count) ∧
    (hall_socd_register_release (hall_socd_register_sensor_count (socd_boot 0) 2) 0).2
      = (hall_socd_register_release ⟨List.replicate 32 true, 2, 2, 1⟩ 0).2 :=
  ⟨by decide,
   (socd_output_independent (hall_socd_register_sensor_count (socd_boot 0) 2)
      ⟨List.replicate 32 true, 2, 2, 1⟩ 0 (by decide) (by decide) (by decide)).2.1⟩

/-! ## The rapid-trigger module -/

theorem getD_of_getElem? (rstates : List rapid_state) (i : Nat) (old : rapid_state)
    (hold : rstates[i]? = some old) : rstates.getD i rapid_state_zero = old := by
  simp [List.getD, hold]

theorem lt_length_of_getElem? (rstates : List rapid_state) (i : Nat) (old : rapid_state)
    (hold : rstates[i]? = some old) : i < rstates.length := by
  by_contra h
  rw [List.getElem?_eq_none (by omega)] at hold
  exact Option.noConfusion hold

/-- A transition of the handler to Pressed makes exactly these calls. -/
theorem handler_press_calls (s : dt_sensor_entry) (v : Int)
    (hs : s.reported_state = false)
    (htr : (sensor_sample_handler_avg s v).1.reported_state = true) :
    sensor_sample_handler_avg s v =
      ({ s with reported_state := true },
        [Call.actuation_handle_event s.key_id true, Call.rapid_on_transition s.key_id,
         Call.work_schedule 20]) := by
  unfold sensor_sample_handler_avg at htr ⊢
  split_ifs at htr ⊢ <;> simp_all

/-- A transition of the handler to Released makes exactly these calls. -/
theorem handler_release_calls (s : dt_sensor_entry) (v : Int)
    (hs : s.reported_state = true)
    (htr : (sensor_sample_handler_avg s v).1.reported_state = false) :
    sensor_sample_handler_avg s v =
      ({ s with reported_state := false },
        [Call.actuation_handle_event s.key_id false, Call.rapid_stop s.key_id,
         Call.work_schedule 20]) := by
  unfold sensor_sample_handler_avg at htr ⊢
  split_ifs at htr ⊢ <;> simp_all

/-- C12: for a non-negative `key_id` whose table entry is `old`, a call of
`hall_rapid_on_transition` at time `now` leaves the entry with
`last_transition_ms = now`; with `dt = (now - old.last_transition_ms) mod 2^32`,
if `dt < 16` and `in_rapid` was false then `in_rapid` becomes true and exactly
one timer, of 100 ms duration and 100 ms period, is started for that entry; if
`in_rapid` was already true no timer is started and `in_rapid` and the timer
stay as they were; if `dt >= 16`, `in_rapid` and the timer are unchanged and
no timer is started. Every other entry is left as it was. -/
theorem rapid_trigger_entry (rstates : List rapid_state) (uptime_ms : Nat) (key_id : Int)
    (old : rapid_state) (h0 : 0 ≤ key_id) (hold : rstates[key_id.toNat]? = some old) :
    (((k_uptime_get_32 uptime_ms : Int) - (old.last_transition_ms : Int)) % 4294967296 < 16 →
      old.in_rapid = false →
      (hall_rapid_on_transition rstates uptime_ms key_id).1[key_id.toNat]?
        = some { last_transition_ms := k_uptime_get_32 uptime_ms, in_rapid := true,
                 repeat_timer := some (100, 100), key_id := key_id } ∧
      (hall_rapid_on_transition rstates uptime_ms key_id).2
        = [TimerCall.timer_start key_id.toNat 100 100]) ∧
    (old.in_rapid = true →
      (hall_rapid_on_transition rstates uptime_ms key_id).1[key_id.toNat]?
        = some { old with last_transition_ms := k_uptime_get_32 uptime_ms } ∧
      (hall_rapid_on_transition rstates uptime_ms key_id).2 = []) ∧
    (16 ≤ ((k_uptime_get_32 uptime_ms : Int) - (old.last_transition_ms : Int)) % 4294967296 →
      (hall_rapid_on_transition rstates uptime_ms key_id).1[key_id.toNat]?
        = some { old with last_transition_ms := k_uptime_get_32 uptime_ms } ∧
      (hall_rapid_on_transition rstates uptime_ms key_id).2 = []) ∧
    (∀ j : Nat, j ≠ key_id.toNat →
      (hall_rapid_on_transition rstates uptime_ms key_id).1[j]? = rstates[j]?) := by
  have hg := getD_of_getElem? rstates _ old hold
  have hlt := lt_length_of_getElem? rstates _ old hold
  have hdt := u32_cast ((k_uptime_get_32 uptime_ms : Int) - (old.last_transition_ms : Int))
  unfold hall_rapid_on_transition
  simp only [hg, CONFIG_HALL_ADC_SAMPLE_INTERVAL_MS]
  refine ⟨?_, ?_, ?_, ?_⟩
  · intro hlt16 hin
    have c : u32 ((k_uptime_get_32 uptime_ms : Int) - (old.last_transition_ms : Int)) < 4 * 4 := by
      omega
    simp [c, hin, hlt]
  · intro hin
    split_ifs <;> simp_all
  · intro hge
    have c : ¬ u32 ((k_uptime_get_32 uptime_ms : Int) - (old.last_transition_ms : Int)) < 4 * 4 := by
      omega
    simp [c, hlt]
  · intro j hj
    split_ifs <;> simp [List.getElem?_set, Ne.symm hj]

/-- Witness of C12: entry 3 of the table at program start, called at uptime
5 ms. -/
theorem rapid_trigger_entry_witness :
    ((0 : Int) ≤ 3 ∧ rapid_boot[(3 : Int).toNat]? = some rapid_state_zero) ∧
    (hall_rapid_on_transition rapid_boot 5 3).2 = [TimerCall.timer_start (3 : Int).toNat 100 100] :=
  ⟨by decide,
   ((rapid_trigger_entry rapid_boot 5 3 rapid_state_zero (by decide) (by decide)).1
      (by decide) (by decide)).2⟩

/-- C13: for a Pressed sensor with non-negative `key_id` whose rapid-trigger
entry is `old`, in a state the module keeps (the timer runs only while
`in_rapid` is set), a handler cycle that enters Released leaves the entry with
`in_rapid = false` and the timer stopped, stops the timer by one call exactly
when `in_rapid` was set, and leaves every other entry as it was; when
`in_rapid` was already false `hall_rapid_stop` changes nothing. -/
theorem release_exits_rapid (uptime_ms : Nat) (sys : system_state) (s : dt_sensor_entry)
    (v : Int) (old : rapid_state) (_hk0 : 0 ≤ s.key_id)
    (hold : sys.rstates[s.key_id.toNat]? = some old) (hwf : rapid_entry_wf old)
    (hs : s.reported_state = true)
    (htr : (sensor_sample_handler_avg s v).1.reported_state = false) :
    (system_cycle_avg uptime_ms sys s v).2.1.rstates[s.key_id.toNat]?
      = some { old with in_rapid := false, repeat_timer := none } ∧
    (system_cycle_avg uptime_ms sys s v).2.2.timer_calls
      = (if old.in_rapid = true then [TimerCall.timer_stop s.key_id.toNat] else []) ∧
    (∀ j : Nat, j ≠ s.key_id.toNat →
      (system_cycle_avg uptime_ms sys s v).2.1.rstates[j]? = sys.rstates[j]?) ∧
    (old.in_rapid = false → hall_rapid_stop sys.rstates s.key_id = (sys.rstates, [])) := by
  have hg := getD_of_getElem? sys.rstates _ old hold
  have hlt := lt_length_of_getElem? sys.rstates _ old hold
  have hc := handler_release_calls s v hs htr
  unfold system_cycle_avg
  rw [hc]
  simp only [exec_calls, exec_call, hall_rapid_stop, hg]
  unfold rapid_entry_wf at hwf
  by_cases hin : old.in_rapid = true
  · simp [hin, hlt, List.getElem?_set]
    intro j hj
    simp [Ne.symm hj]
  · have hf : old.in_rapid = false := by simpa using hin
    have ht := hwf hf
    simp [hf, hold]
    cases old
    simp_all

/-- Witness of C13: sensor 0, Pressed, threshold 900 and hysteresis 50, in
rapid mode with its timer running, released by 400 mV. -/
theorem release_exits_rapid_witness :
    ((0 : Int) ≤ (⟨0, 0, 500, 900, 50, true⟩ : dt_sensor_entry).key_id ∧
      (hall_rapid_on_transition rapid_boot 5 0).1[(0 : Int).toNat]?
        = some ⟨5, true, some (100, 100), 0⟩ ∧
      rapid_entry_wf ⟨5, true, some (100, 100), 0⟩ ∧
      (⟨0, 0, 500, 900, 50, true⟩ : dt_sensor_entry).reported_state = true ∧
      (sensor_sample_handler_avg ⟨0, 0, 500, 900, 50, true⟩ 400).1.reported_state = false) ∧
    (system_cycle_avg 1000
        ⟨hall_socd_register_sensor_count (socd_boot 0) 1, (hall_rapid_on_transition rapid_boot 5 0).1⟩
        ⟨0, 0, 500, 900, 50, true⟩ 400).2.1.rstates[(0 : Int).toNat]?
      = some ⟨5, false, none, 0⟩ :=
  ⟨by decide,
   (release_exits_rapid 1000
      ⟨hall_socd_register_sensor_count (socd_boot 0) 1, (hall_rapid_on_transition rapid_boot 5 0).1⟩
      ⟨0, 0, 500, 900, 50, true⟩ 400 ⟨5, true, some (100, 100), 0⟩
      (by decide) (by decide) (by decide) (by decide) (by decide)).1⟩

/-! ## The actuator: further claims -/

/-- C14: a sensor left as `dt_init_sensors` fills it (baseline 0, threshold 0,
hysteresis 50, Released) has the negative release level -50; its first
successful averaged sample, whatever its value `v >= 0`, makes it Pressed with
the one event `(key_id, true)`, and in every later cycle, whatever the averaged
voltage, it stays Pressed and no event is handed over, so it is never
released. -/
theorem uncalibrated_reads_pressed (channel_id : Nat) (key_id : Int) (v : Int)
    (vs : List Int) (hv : 0 ≤ v) :
    wrap32 (u32 (((dt_init_entry channel_id key_id).threshold_mv : Int)
      - ((dt_init_entry channel_id key_id).hyst_mv : Int)) : Int) = -50 ∧
    (sensor_sample_handler_avg (dt_init_entry channel_id key_id) v).1.reported_state = true ∧
    actuation_events (sensor_sample_handler_avg (dt_init_entry channel_id key_id) v).2
      = [(key_id, true)] ∧
    ∀ c ∈ run_cycles (sensor_sample_handler_avg (dt_init_entry channel_id key_id) v).1 vs,
      c.before.reported_state = true ∧ c.after.reported_state = true ∧
      actuation_events c.calls = [] := by
  have hlevel : wrap32 (u32 (((0 : Nat) : Int) - ((50 : Nat) : Int)) : Int) = -50 := by decide
  have hpress : wrap32 (((0 : Nat) : Int)) = 0 := by decide
  have e1 : sensor_sample_handler_avg (dt_init_entry channel_id key_id) v
      = (⟨channel_id, key_id, 0, 0, 50, true⟩,
          [Call.actuation_handle_event key_id true, Call.rapid_on_transition key_id,
           Call.work_schedule 20]) :=
    handler_released_press _ _ rfl hv (by
      show wrap32 (((0 : Nat) : Int)) ≤ v
      rw [hpress]; exact hv)
  refine ⟨hlevel, ?_, ?_, ?_⟩
  · rw [e1]
  · rw [e1]; rfl
  · rw [e1]
    show ∀ c ∈ run_cycles ⟨channel_id, key_id, 0, 0, 50, true⟩ vs, _
    induction vs with
    | nil => intro c hc; simp [run_cycles] at hc
    | cons w ws ih =>
      have step : sensor_sample_handler_avg ⟨channel_id, key_id, 0, 0, 50, true⟩ w
          = (⟨channel_id, key_id, 0, 0, 50, true⟩,
              if w < 0 then [Call.work_schedule 50] else [Call.work_schedule 20]) := by
        by_cases hw : w < 0
        · rw [handler_failure _ _ hw, if_pos hw]
        · rw [if_neg hw]
          exact handler_pressed_hold _ _ rfl (by omega) (by
            show wrap32 (u32 (((0 : Nat) : Int) - ((50 : Nat) : Int)) : Int) < w
            rw [hlevel]; omega)
      intro c hc
      rw [run_cycles] at hc
      simp only [step, List.mem_cons] at hc
      rcases hc with hc | hc
      · subst hc
        refine ⟨rfl, rfl, ?_⟩
        show actuation_events (if w < 0 then [Call.work_schedule 50] else [Call.work_schedule 20]) = []
        split_ifs <;> rfl
      · exact ih c hc

/-- Witness of C14: key 1 on channel 5, first sample 0 mV, then 3300, 0 and a
failed batch. -/
theorem uncalibrated_reads_pressed_witness :
    (0 : Int) ≤ 0 ∧
    ∀ c ∈ run_cycles (sensor_sample_handler_avg (dt_init_entry 5 1) 0).1 [3300, 0, -5],
      c.before.reported_state = true ∧ c.after.reported_state = true ∧
      actuation_events c.calls = [] :=
  ⟨by decide, (uncalibrated_reads_pressed 5 1 0 [3300, 0, -5] (by decide)).2.2.2⟩

/-- C15 (amended): on every press or release transition the handler delivers
the `(key_id, pressed)` event exactly once to the SOCD resolver, through
`hall_actuation_handle_event`, and exactly once to the rapid-trigger module
(`hall_rapid_on_transition` on a press, `hall_rapid_stop` on a release), the
SOCD resolver call happening first. -/
theorem event_delivery_order (s : dt_sensor_entry) (v : Int)
    (htr : (sensor_sample_handler_avg s v).1.reported_state ≠ s.reported_state) :
    deliveries (sensor_sample_handler_avg s v).2
      = [Delivery.socd_resolver s.key_id (sensor_sample_handler_avg s v).1.reported_state,
         Delivery.rapid_trigger s.key_id (sensor_sample_handler_avg s v).1.reported_state] ∧
    (sensor_sample_handler_avg s v).2
      = [Call.actuation_handle_event s.key_id (sensor_sample_handler_avg s v).1.reported_state,
         (if (sensor_sample_handler_avg s v).1.reported_state = true
            then Call.rapid_on_transition s.key_id else Call.rapid_stop s.key_id),
         Call.work_schedule 20] := by
  cases hs : s.reported_state with
  | false =>
    have hnew : (sensor_sample_handler_avg s v).1.reported_state = true := by
      rw [hs] at htr; simpa using htr
    rw [handler_press_calls s v hs hnew]
    exact ⟨rfl, rfl⟩
  | true =>
    have hnew : (sensor_sample_handler_avg s v).1.reported_state = false := by
      rw [hs] at htr; simpa using htr
    rw [handler_release_calls s v hs hnew]
    exact ⟨rfl, rfl⟩

/-- Witness of C15 (amended): the press of sensor 0 at 950 mV over threshold
900. -/
theorem event_delivery_order_witness :
    (sensor_sample_handler_avg ⟨0, 0, 500, 900, 50, false⟩ 950).1.reported_state
      ≠ (⟨0, 0, 500, 900, 50, false⟩ : dt_sensor_entry).reported_state ∧
    deliveries (sensor_sample_handler_avg ⟨0, 0, 500, 900, 50, false⟩ 950).2
      = [Delivery.socd_resolver (⟨0, 0, 500, 900, 50, false⟩ : dt_sensor_entry).key_id
            (sensor_sample_handler_avg ⟨0, 0, 500, 900, 50, false⟩ 950).1.reported_state,
         Delivery.rapid_trigger (⟨0, 0, 500, 900, 50, false⟩ : dt_sensor_entry).key_id
            (sensor_sample_handler_avg ⟨0, 0, 500, 900, 50, false⟩ 950).1.reported_state] :=
  ⟨by decide, (event_delivery_order ⟨0, 0, 500, 900, 50, false⟩ 950 (by decide)).1⟩

/-- Counterexample to C15 as stated: at the press of sensor 0 and at its
release the call to the SOCD resolver comes first and the call to the
rapid-trigger module second, not the other way round. -/
theorem event_delivery_order_counterexample :
    deliveries (sensor_sample_handler_avg ⟨0, 0, 500, 900, 50, false⟩ 950).2
      = [Delivery.socd_resolver 0 true, Delivery.rapid_trigger 0 true] ∧
    deliveries (sensor_sample_handler_avg ⟨0, 0, 500, 900, 50, false⟩ 950).2
      ≠ [Delivery.rapid_trigger 0 true, Delivery.socd_resolver 0 true] ∧
    deliveries (sensor_sample_handler_avg ⟨0, 0, 500, 900, 50, true⟩ 400).2
      = [Delivery.socd_resolver 0 false, Delivery.rapid_trigger 0 false] ∧
    deliveries (sensor_sample_handler_avg ⟨0, 0, 500, 900, 50, true⟩ 400).2
      ≠ [Delivery.rapid_trigger 0 false, Delivery.socd_resolver 0 false] := by
  decide

/-! ## The resolver and the rapid-trigger pulses -/

theorem handle_event_in_range (st : socd_state) (k : Int) (p : Bool) (hwf : socd_wf st)
    (h0 : 0 ≤ k) (h1 : k < st.sensor_count) :
    (hall_actuation_handle_event st k p).2 = [(k.toNat, p)] ∧
    (hall_actuation_handle_event st k p).1.sensor_state = st.sensor_state.set k.toNat p := by
  cases p with
  | true =>
    have e : hall_actuation_handle_event st k true = _ := register_press_in_range st k hwf h0 h1
    rw [e]; exact ⟨rfl, rfl⟩
  | false =>
    have e : hall_actuation_handle_event st k false = _ :=
      register_release_in_range st k hwf h0 h1
    rw [e]; exact ⟨rfl, rfl⟩

theorem handle_event_out_of_range (st : socd_state) (k : Int) (p : Bool)
    (h : k < 0 ∨ k ≥ st.sensor_count) :
    hall_actuation_handle_event st k p = (st, []) := by
  cases p <;> simp [hall_actuation_handle_event, hall_socd_register_press,
    hall_socd_register_release, h]

theorem last_emitted_append (id : Nat) (xs ys : List (Nat × Bool)) :
    ∀ init : Bool, last_emitted id init (xs ++ ys) = last_emitted id (last_emitted id init xs) ys := by
  induction xs with
  | nil => intro init; rfl
  | cons x xs ih =>
    intro init
    obtain ⟨k, p⟩ := x
    show last_emitted id (if k = id then p else init) (xs ++ ys) = _
    rw [ih]
    rfl

/-- Through any sequence of actuator events the table entry of an id is the
state last emitted for it. -/
theorem socd_run_last_emitted (es : List (Int × Bool)) :
    ∀ (st : socd_state), socd_wf st → ∀ (id : Nat) (b : Bool),
      st.sensor_state[id]? = some b →
      (socd_run st es).1.sensor_state[id]? = some (last_emitted id b (socd_run st es).2) := by
  induction es with
  | nil => intro st _ id b h; simpa [socd_run, last_emitted] using h
  | cons e es ih =>
    obtain ⟨k, p⟩ := e
    intro st hwf id b h
    have w := socd_wf_handle_event st k p hwf
    simp only [socd_run]
    rw [last_emitted_append]
    by_cases hr : 0 ≤ k ∧ k < st.sensor_count
    · obtain ⟨h0, h1⟩ := hr
      obtain ⟨ev, hst⟩ := handle_event_in_range st k p hwf h0 h1
      rw [ev]
      apply ih _ w.1
      rw [hst, List.getElem?_set]
      by_cases hk : k.toNat = id
      · subst hk
        have hlt : k.toNat < st.sensor_state.length := by
          by_contra hc
          rw [List.getElem?_eq_none (by omega)] at h
          exact Option.noConfusion h
        simp [last_emitted, hlt]
      · simp [last_emitted, hk, h]
    · have hout : k < 0 ∨ k ≥ st.sensor_count := by omega
      rw [handle_event_out_of_range st k p hout]
      exact ih st hwf id b h

theorem clear_sensor_state_frame (n : Nat) :
    ∀ (xs : List Bool) (i j : Nat), j < i → (clear_sensor_state xs n i)[j]? = xs[j]? := by
  induction n with
  | zero => intro xs i j _; rfl
  | succ n ih =>
    intro xs i j hj
    rw [clear_sensor_state, ih _ _ _ (by omega), List.getElem?_set]
    have : i ≠ j := by omega
    simp [this]

theorem clear_sensor_state_cleared (n : Nat) :
    ∀ (xs : List Bool) (i j : Nat), i ≤ j → j < i + n → j < xs.length →
      (clear_sensor_state xs n i)[j]? = some false := by
  induction n with
  | zero => intro xs i j h1 h2 _; omega
  | succ n ih =>
    intro xs i j h1 h2 hlen
    rw [clear_sensor_state]
    by_cases hij : i = j
    · subst hij
      rw [clear_sensor_state_frame n _ _ _ (by omega)]
      simp [hlen]
    · exact ih _ _ _ (by omega) (by omega) (by simpa using hlen)

/-- C16 (amended): the resolver produces the key-position events of the
actuator transitions: after `hall_socd_register_sensor_count` and any sequence
of actuator events, the state last emitted for an id in `[0, sensor_count)`
(released when none was emitted) is `sensor_state[id]`. A rapid-trigger pulse
does not pass through the resolver: `repeat_timeout` emits `(key_id, true)`
and then `(key_id, false)` itself and leaves the resolver state as it is. -/
theorem resolver_tracks_transitions (st : socd_state) (count : Int) (es : List (Int × Bool))
    (id : Nat) (hlen : st.sensor_state.length = MAX_HALL_SENSORS)
    (hid : (id : Int) < (hall_socd_register_sensor_count st count).sensor_count) :
    (socd_run (hall_socd_register_sensor_count st count) es).1.sensor_state[id]?
      = some (last_emitted id false (socd_run (hall_socd_register_sensor_count st count) es).2) ∧
    (∀ (sys : system_state) (idx : Nat), (timer_tick sys idx).1 = sys) ∧
    (∀ (sys : system_state) (idx : Nat) (rs : rapid_state),
      sys.rstates[idx]? = some rs → rs.repeat_timer.isSome = true →
      (timer_tick sys idx).2 = [(u16 rs.key_id, true), (u16 rs.key_id, false)]) := by
  have hwf := socd_wf_register_sensor_count st count hlen
  refine ⟨?_, ?_, ?_⟩
  · apply socd_run_last_emitted es _ hwf
    have hcnt : (id : Int) < (MAX_HALL_SENSORS : Int) := lt_of_lt_of_le hid hwf.2
    unfold hall_socd_register_sensor_count at hid ⊢
    simp only at hid ⊢
    unfold MAX_HALL_SENSORS at hlen hcnt
    generalize (if count > (MAX_HALL_SENSORS : Int) then (MAX_HALL_SENSORS : Int) else count)
      = c at hid ⊢
    apply clear_sensor_state_cleared <;> omega
  · intro sys idx
    unfold timer_tick
    split
    · split_ifs <;> rfl
    · rfl
  · intro sys idx rs hrs hrun
    unfold timer_tick
    simp [hrs, hrun, repeat_timeout]

/-- Witness of C16 (amended): sensor 1 of two after press 0, press 1,
release 0, release 1, press 1. -/
theorem resolver_tracks_transitions_witness :
    ((socd_boot 0).sensor_state.length = MAX_HALL_SENSORS ∧
      ((1 : Nat) : Int) < (hall_socd_register_sensor_count (socd_boot 0) 2).sensor_count) ∧
    (socd_run (hall_socd_register_sensor_count (socd_boot 0) 2)
        [(0, true), (1, true), (0, false), (1, false), (1, true)]).1.sensor_state[1]?
      = some (last_emitted 1 false
          (socd_run (hall_socd_register_sensor_count (socd_boot 0) 2)
            [(0, true), (1, true), (0, false), (1, false), (1, true)]).2) :=
  ⟨by decide,
   (resolver_tracks_transitions (socd_boot 0) 2
      [(0, true), (1, true), (0, false), (1, false), (1, true)] 1 (by decide) (by decide)).1⟩

/-- Counterexample to C16 as stated: one sensor, threshold 900 mV, pressed by
950 mV in a cycle that ends at uptime 2^32 + 5 ms. `hall_rapid_on_transition`
sees dt = 5 and starts the timer; the timer expiry emits 0=pressed and
0=released without touching the resolver, so the state last emitted for
sensor 0 is released while `sensor_state[0]` is still true. -/
theorem rapid_pulse_bypasses_resolver_counterexample :
    (system_cycle_avg 4294967301 ⟨hall_socd_register_sensor_count (socd_boot 0) 1, rapid_boot⟩
        ⟨0, 0, 500, 900, 50, false⟩ 950).2.2
      = { key_positions := [(0, true)], timer_calls := [TimerCall.timer_start 0 100 100] } ∧
    (timer_tick
        (system_cycle_avg 4294967301 ⟨hall_socd_register_sensor_count (socd_boot 0) 1, rapid_boot⟩
          ⟨0, 0, 500, 900, 50, false⟩ 950).2.1 0).2
      = [(0, true), (0, false)] ∧
    (timer_tick
        (system_cycle_avg 4294967301 ⟨hall_socd_register_sensor_count (socd_boot 0) 1, rapid_boot⟩
          ⟨0, 0, 500, 900, 50, false⟩ 950).2.1 0).1.socd.sensor_state[0]?
      = some true ∧
    last_emitted 0 false ([(0, true)] ++ [(0, true), (0, false)]) = false := by
  decide

/-! ## The sampler: ranges -/

theorem spec_reading_mv_of_nonneg (r : Int) (h : 0 ≤ spec_unsigned r) :
    spec_reading_mv r = spec_unsigned r * 3300 / 4095 := by
  unfold spec_reading_mv
  have e : ((2 : Int) ^ 12 - 1) = 4095 := by norm_num
  rw [e, Int.tdiv_eq_ediv (by omega) (by norm_num)]

theorem spec_reading_mv_of_neg (r : Int) (h : spec_unsigned r < 0) :
    spec_reading_mv r = -((-spec_unsigned r) * 3300 / 4095) := by
  unfold spec_reading_mv
  have e : ((2 : Int) ^ 12 - 1) = 4095 := by norm_num
  have e2 : spec_unsigned r * 3300 = -((-spec_unsigned r) * 3300) := by ring
  rw [e, e2, Int.neg_tdiv, Int.tdiv_eq_ediv (by omega) (by norm_num)]

theorem spec_unsigned_adc_range (r : Int) (h1 : -2048 ≤ r) (h2 : r ≤ 4095) :
    0 ≤ spec_unsigned r ∧ spec_unsigned r ≤ 4095 := by
  unfold spec_unsigned; split_ifs <;> norm_num <;> omega

theorem raw_to_mv_adc_range (r : Int) (h1 : -2048 ≤ r) (h2 : r ≤ 4095) :
    0 ≤ raw_to_mv r ADC_RESOLUTION ∧ raw_to_mv r ADC_RESOLUTION ≤ 3300 := by
  have hu := spec_unsigned_adc_range r h1 h2
  rw [raw_to_mv_eq_spec r ⟨by omega, by omega⟩, spec_reading_mv_of_nonneg r hu.1]
  omega

theorem tdiv_8_adc_range (x : Int) (h1 : 0 ≤ x) (h2 : x ≤ 26400) :
    0 ≤ Int.tdiv x 8 ∧ Int.tdiv x 8 ≤ 3300 := by
  rw [Int.tdiv_eq_ediv h1 (by norm_num)]; omega

theorem sample_average_adc_range (adc : Nat → AdcOutcome)
    (hok : ∀ i, i < 8 → (adc i).rc = 0 ∧ -2048 ≤ (adc i).raw_buf ∧ (adc i).raw_buf ≤ 4095) :
    0 ≤ sample_average_mv adc ∧ sample_average_mv adc ≤ 3300 := by
  have hok16 : ∀ i, i < 8 → (adc i).rc = 0 ∧ isInt16 (adc i).raw_buf :=
    fun i hi => ⟨(hok i hi).1, by have := (hok i hi).2; exact ⟨by omega, by omega⟩⟩
  have hm : ∀ i, i < 8 → 0 ≤ spec_reading_mv (adc i).raw_buf ∧
      spec_reading_mv (adc i).raw_buf ≤ 3300 := by
    intro i hi
    have := raw_to_mv_adc_range (adc i).raw_buf (hok i hi).2.1 (hok i hi).2.2
    rwa [raw_to_mv_eq_spec _ (hok16 i hi).2] at this
  have b0 := hm 0 (by norm_num)
  have b1 := hm 1 (by norm_num)
  have b2 := hm 2 (by norm_num)
  have b3 := hm 3 (by norm_num)
  have b4 := hm 4 (by norm_num)
  have b5 := hm 5 (by norm_num)
  have b6 := hm 6 (by norm_num)
  have b7 := hm 7 (by norm_num)
  rw [(sample_average_ok adc hok16).1]
  show 0 ≤ Int.tdiv (spec_reading_mv (adc 0).raw_buf + (spec_reading_mv (adc 1).raw_buf +
        (spec_reading_mv (adc 2).raw_buf + (spec_reading_mv (adc 3).raw_buf +
        (spec_reading_mv (adc 4).raw_buf + (spec_reading_mv (adc 5).raw_buf +
        (spec_reading_mv (adc 6).raw_buf + (spec_reading_mv (adc 7).raw_buf + 0)))))))) 8 ∧
      Int.tdiv (spec_reading_mv (adc 0).raw_buf + (spec_reading_mv (adc 1).raw_buf +
        (spec_reading_mv (adc 2).raw_buf + (spec_reading_mv (adc 3).raw_buf +
        (spec_reading_mv (adc 4).raw_buf + (spec_reading_mv (adc 5).raw_buf +
        (spec_reading_mv (adc 6).raw_buf + (spec_reading_mv (adc 7).raw_buf + 0)))))))) 8 ≤ 3300
  apply tdiv_8_adc_range <;> omega

/-- C19 (amended): for every batch of 8 successful raw readings each in
`[-2^11, 2^12 - 1]`, every `raw_to_mv` value and the result of
`sample_average_mv` lie in `[0, 3300]`, so the failure test `avg_mv < 0` of
the handler is false and the handler does not take the 50 ms backoff;
`raw_to_mv` is non-decreasing on `[0, 2^12 - 1]`; and for an `int16_t` raw
reading below `-2^11 - 1` (at most -2050) `raw_to_mv` is negative. -/
theorem successful_batch_not_failure (adc : Nat → AdcOutcome)
    (hok : ∀ i, i < 8 → (adc i).rc = 0 ∧ -2048 ≤ (adc i).raw_buf ∧ (adc i).raw_buf ≤ 4095) :
    (∀ i, i < 8 → 0 ≤ raw_to_mv (adc i).raw_buf ADC_RESOLUTION ∧
      raw_to_mv (adc i).raw_buf ADC_RESOLUTION ≤ 3300) ∧
    (0 ≤ sample_average_mv adc ∧ sample_average_mv adc ≤ 3300) ∧
    ¬ (sample_average_mv adc < 0) ∧
    (∀ s : dt_sensor_entry, Call.work_schedule 50 ∉ (sensor_sample_handler s adc).2) ∧
    (∀ a b : Int, 0 ≤ a → a ≤ b → b ≤ 4095 →
      raw_to_mv a ADC_RESOLUTION ≤ raw_to_mv b ADC_RESOLUTION) ∧
    (∀ r : Int, isInt16 r → r ≤ -2050 → raw_to_mv r ADC_RESOLUTION < 0) := by
  have havg := sample_average_adc_range adc hok
  refine ⟨fun i hi => raw_to_mv_adc_range _ (hok i hi).2.1 (hok i hi).2.2, havg, by omega,
    ?_, ?_, ?_⟩
  · intro s
    have hn : ¬ sample_average_mv adc < 0 := by omega
    unfold sensor_sample_handler sensor_sample_handler_avg
    rw [if_neg hn]
    split_ifs <;> simp
  · intro a b ha hab hb
    have ua : spec_unsigned a = a := by unfold spec_unsigned; rw [if_pos (by omega)]
    have ub : spec_unsigned b = b := by unfold spec_unsigned; rw [if_pos (by omega)]
    rw [raw_to_mv_eq_spec a ⟨by omega, by omega⟩, raw_to_mv_eq_spec b ⟨by omega, by omega⟩,
      spec_reading_mv_of_nonneg a (by omega), spec_reading_mv_of_nonneg b (by omega), ua, ub]
    omega
  · intro r hr hlow
    have hr2 := hr
    obtain ⟨h1, h2⟩ := hr2
    have ur : spec_unsigned r = r + 2048 := by
      unfold spec_unsigned; rw [if_neg (by omega)]; norm_num
    rw [raw_to_mv_eq_spec r hr, spec_reading_mv_of_neg r (by omega), ur]
    omega

/-- Witness of C19 (amended): readings -2048, -1, 0, 1, 2047, 2048, 4094 and
4095. -/
theorem successful_batch_not_failure_witness :
    (∀ i, i < 8 →
      ((fun i => ⟨0, [-2048, -1, 0, 1, 2047, 2048, 4094, 4095].getD i 0⟩ :
          Nat → AdcOutcome) i).rc = 0 ∧
      -2048 ≤ ((fun i => ⟨0, [-2048, -1, 0, 1, 2047, 2048, 4094, 4095].getD i 0⟩ :
          Nat → AdcOutcome) i).raw_buf ∧
      ((fun i => ⟨0, [-2048, -1, 0, 1, 2047, 2048, 4094, 4095].getD i 0⟩ :
          Nat → AdcOutcome) i).raw_buf ≤ 4095) ∧
    (0 ≤ sample_average_mv (fun i => ⟨0, [-2048, -1, 0, 1, 2047, 2048, 4094, 4095].getD i 0⟩) ∧
      sample_average_mv (fun i => ⟨0, [-2048, -1, 0, 1, 2047, 2048, 4094, 4095].getD i 0⟩)
        ≤ 3300) :=
  ⟨fun i hi => ⟨rfl, by interval_cases i <;> decide⟩,
   (successful_batch_not_failure
      (fun i => ⟨0, [-2048, -1, 0, 1, 2047, 2048, 4094, 4095].getD i 0⟩)
      (fun i hi => ⟨rfl, by interval_cases i <;> decide⟩)).2.1⟩

/-- Counterexample to C19 as stated: the raw reading -2049 is below -2^11, yet
`raw_to_mv` gives 0 for it, since -3300 / 4095 truncates to 0. -/
theorem raw_to_mv_below_range_counterexample :
    (-2049 : Int) < -(2 ^ 11) ∧ isInt16 (-2049) ∧
    raw_to_mv (-2049) ADC_RESOLUTION = 0 ∧ ¬ (raw_to_mv (-2049) ADC_RESOLUTION < 0) := by
  decide

/-! ## One sensor in time: rapid mode -/

theorem on_transition_outside_window (rstates : List rapid_state) (uptime_ms : Nat)
    (k : Int) (old : rapid_state) (hold : rstates[k.toNat]? = some old)
    (hup : uptime_ms < 4294967296) (hlast : old.last_transition_ms + 16 ≤ uptime_ms) :
    hall_rapid_on_transition rstates uptime_ms k
      = (rstates.set k.toNat { old with last_transition_ms := uptime_ms }, []) ∧
    16 ≤ rapid_dt rstates uptime_ms k := by
  have hg := getD_of_getElem? rstates _ old hold
  have hnow : k_uptime_get_32 uptime_ms = uptime_ms := by unfold k_uptime_get_32; omega
  have hdt := u32_cast ((uptime_ms : Int) - (old.last_transition_ms : Int))
  have c : ¬ u32 ((uptime_ms : Int) - (old.last_transition_ms : Int)) < 4 * 4 := by omega
  refine ⟨?_, ?_⟩
  · unfold hall_rapid_on_transition
    simp only [hg, hnow, CONFIG_HALL_ADC_SAMPLE_INTERVAL_MS, c, if_false]
  · unfold rapid_dt
    rw [hg, hnow]
    omega

theorem stop_outside_rapid (rstates : List rapid_state) (k : Int) (old : rapid_state)
    (hold : rstates[k.toNat]? = some old) (hin : old.in_rapid = false) :
    hall_rapid_stop rstates k = (rstates, []) := by
  have hg := getD_of_getElem? rstates _ old hold
  unfold hall_rapid_stop
  simp only [hg, hin]
  simp

/-- A handler run makes one of four lists of calls and keeps `key_id`. -/
theorem handler_calls_cases (s : dt_sensor_entry) (v : Int) :
    (sensor_sample_handler_avg s v).1.key_id = s.key_id ∧
    ((sensor_sample_handler_avg s v).2 = [Call.work_schedule 50] ∨
     (sensor_sample_handler_avg s v).2 = [Call.work_schedule 20] ∨
     (sensor_sample_handler_avg s v).2
        = [Call.actuation_handle_event s.key_id true, Call.rapid_on_transition s.key_id,
           Call.work_schedule 20] ∨
     (sensor_sample_handler_avg s v).2
        = [Call.actuation_handle_event s.key_id false, Call.rapid_stop s.key_id,
           Call.work_schedule 20]) := by
  unfold sensor_sample_handler_avg
  split_ifs <;> simp

/-- One cycle in time keeps the rapid-trigger table out of rapid mode when
every entry is out of it, the last press of the sensor is at least 16 ms
before the due time of the cycle, and the uptime has not wrapped. -/
theorem pipeline_cycle_step (k : Int) (p : pipeline_state) (c : TimedCycle)
    (hkey : p.sensor.key_id = k)
    (hall : ∀ (j : Nat) (rs : rapid_state), p.sys.rstates[j]? = some rs →
      rs.in_rapid = false ∧ rs.repeat_timer = none)
    (hlast : ∃ rs, p.sys.rstates[k.toNat]? = some rs ∧ rs.last_transition_ms + 16 ≤ p.due_ms)
    (hup : (pipeline_cycle p c).uptime_ms < 4294967296) :
    ((pipeline_cycle p c).after.sensor.key_id = k ∧
      (∀ (j : Nat) (rs : rapid_state), (pipeline_cycle p c).after.sys.rstates[j]? = some rs →
        rs.in_rapid = false ∧ rs.repeat_timer = none) ∧
      (∃ rs, (pipeline_cycle p c).after.sys.rstates[k.toNat]? = some rs ∧
        rs.last_transition_ms + 16 ≤ (pipeline_cycle p c).after.due_ms)) ∧
    (Call.rapid_on_transition k ∈ (pipeline_cycle p c).calls →
      16 ≤ rapid_dt p.sys.rstates (pipeline_cycle p c).uptime_ms k) ∧
    (pipeline_cycle p c).emitted.timer_calls = [] := by
  obtain ⟨old, hold, hold16⟩ := hlast
  have hin := (hall _ _ hold).1
  have htim := (hall _ _ hold).2
  have hlt := lt_length_of_getElem? p.sys.rstates _ old hold
  have hup2 : p.due_ms + c.latency_ms + c.batch_ms < 4294967296 := hup
  obtain ⟨hk, hcases⟩ := handler_calls_cases p.sensor (sample_average_mv c.adc)
  have hon := on_transition_outside_window p.sys.rstates
    (p.due_ms + c.latency_ms + c.batch_ms) k old hold hup2 (by omega)
  have hstop := stop_outside_rapid p.sys.rstates k old hold hin
  unfold pipeline_cycle sensor_sample_handler
  simp only
  rw [hkey] at hk hcases
  rcases hcases with h | h | h | h
  · rw [h]
    simp only [exec_calls, exec_call, scheduled_delay, List.append_nil, hk]
    refine ⟨⟨trivial, hall, old, hold, by omega⟩, by simp, trivial⟩
  · rw [h]
    simp only [exec_calls, exec_call, scheduled_delay, List.append_nil, hk]
    refine ⟨⟨trivial, hall, old, hold, by omega⟩, by simp, trivial⟩
  · rw [h]
    simp only [exec_calls, exec_call, scheduled_delay, List.append_nil, hk, hon.1]
    refine ⟨⟨trivial, ?_, ?_⟩, fun _ => hon.2, by simp⟩
    · intro j rs hj
      rw [List.getElem?_set] at hj
      by_cases hjk : k.toNat = j
      · subst hjk
        simp [hlt] at hj
        subst hj
        exact ⟨hin, htim⟩
      · simp [hjk] at hj
        exact hall j rs hj
    · refine ⟨{ old with last_transition_ms := p.due_ms + c.latency_ms + c.batch_ms }, ?_, ?_⟩
      · simp [hlt]
      · simp only; omega
  · rw [h]
    simp only [exec_calls, exec_call, scheduled_delay, List.append_nil, hk, hstop]
    refine ⟨⟨trivial, hall, old, hold, by omega⟩, by simp, by simp⟩

theorem pipeline_run_no_rapid (k : Int) (cycles : List TimedCycle) :
    ∀ p : pipeline_state, p.sensor.key_id = k →
      (∀ (j : Nat) (rs : rapid_state), p.sys.rstates[j]? = some rs →
        rs.in_rapid = false ∧ rs.repeat_timer = none) →
      (∃ rs, p.sys.rstates[k.toNat]? = some rs ∧ rs.last_transition_ms + 16 ≤ p.due_ms) →
      (∀ r ∈ pipeline_run p cycles, r.uptime_ms < 4294967296) →
      ∀ r ∈ pipeline_run p cycles,
        (Call.rapid_on_transition k ∈ r.calls →
          16 ≤ rapid_dt r.before.sys.rstates r.uptime_ms k) ∧
        r.emitted.timer_calls = [] ∧
        (∀ (j : Nat) (rs : rapid_state), r.after.sys.rstates[j]? = some rs →
          rs.in_rapid = false ∧ rs.repeat_timer = none) := by
  induction cycles with
  | nil => intro p _ _ _ _ r hr; simp [pipeline_run] at hr
  | cons c cs ih =>
    intro p hkey hall hlast hup r hr
    have hup0 : (pipeline_cycle p c).uptime_ms < 4294967296 :=
      hup _ (by simp [pipeline_run])
    have step := pipeline_cycle_step k p c hkey hall hlast hup0
    simp only [pipeline_run, List.mem_cons] at hr
    rcases hr with hr | hr
    · subst hr
      exact ⟨step.2.1, step.2.2, step.1.2.1⟩
    · exact ih (pipeline_cycle p c).after step.1.1 step.1.2.1 step.1.2.2
        (fun r2 h2 => hup r2 (by simp [pipeline_run, h2])) r hr

/-- C18: one sensor with `key_id` in `[0, 32)`, the rapid-trigger table as at
program start, the first cycle due at uptime 100 ms or later, every later
cycle due after the delay its predecessor passed to `k_work_schedule`, and the
uptime below 2^32 ms at every handler run. Then every call of
`hall_rapid_on_transition` made by the handler sees `dt >= 16`, no timer call
is ever made, and after every cycle every entry has `in_rapid = false` and its
timer stopped. The 20 ms reschedule alone keeps two handler runs apart, so no
bound on the duration of a batch is needed. -/
theorem rapid_mode_unreachable (s : dt_sensor_entry) (socd : socd_state) (first_due : Nat)
    (cycles : List TimedCycle) (hk0 : 0 ≤ s.key_id) (hk1 : s.key_id < 32)
    (hfirst : 100 ≤ first_due)
    (hup : ∀ r ∈ pipeline_run ⟨first_due, s, ⟨socd, rapid_boot⟩⟩ cycles,
      r.uptime_ms < 4294967296) :
    ∀ r ∈ pipeline_run ⟨first_due, s, ⟨socd, rapid_boot⟩⟩ cycles,
      (Call.rapid_on_transition s.key_id ∈ r.calls →
        16 ≤ rapid_dt r.before.sys.rstates r.uptime_ms s.key_id) ∧
      r.emitted.timer_calls = [] ∧
      (∀ (j : Nat) (rs : rapid_state), r.after.sys.rstates[j]? = some rs →
        rs.in_rapid = false ∧ rs.repeat_timer = none) := by
  have hboot : ∀ (j : Nat) (rs : rapid_state), rapid_boot[j]? = some rs →
      rs = rapid_state_zero := by
    intro j rs hj
    unfold rapid_boot at hj
    rw [List.getElem?_replicate] at hj
    split_ifs at hj
    exact (Option.some.inj hj).symm
  apply pipeline_run_no_rapid s.key_id cycles _ rfl
  · intro j rs hj
    rw [hboot j rs hj]
    exact ⟨rfl, rfl⟩
  · refine ⟨rapid_state_zero, ?_, ?_⟩
    · show rapid_boot[s.key_id.toNat]? = some rapid_state_zero
      unfold rapid_boot MAX_SENSORS
      rw [List.getElem?_replicate, if_pos (by omega)]
    · show rapid_state_zero.last_transition_ms + 16 ≤ first_due
      unfold rapid_state_zero
      simp only
      omega
  · exact hup

/-- Witness of C18: sensor 0 pressed, released and pressed again in three
cycles that end at uptimes 132, 184 and 247 ms. -/
theorem rapid_mode_unreachable_witness :
    ((0 : Int) ≤ (⟨0, 0, 500, 900, 50, false⟩ : dt_sensor_entry).key_id ∧
      (⟨0, 0, 500, 900, 50, false⟩ : dt_sensor_entry).key_id < 32 ∧ 100 ≤ 100 ∧
      ∀ r ∈ pipeline_run
          ⟨100, ⟨0, 0, 500, 900, 50, false⟩,
            ⟨hall_socd_register_sensor_count (socd_boot 0) 1, rapid_boot⟩⟩
          [⟨0, 32, fun _ => ⟨0, 1200⟩⟩, ⟨0, 32, fun _ => ⟨0, 100⟩⟩, ⟨3, 40, fun _ => ⟨0, 1200⟩⟩],
        r.uptime_ms < 4294967296) ∧
    ∀ r ∈ pipeline_run
        ⟨100, ⟨0, 0, 500, 900, 50, false⟩,
          ⟨hall_socd_register_sensor_count (socd_boot 0) 1, rapid_boot⟩⟩
        [⟨0, 32, fun _ => ⟨0, 1200⟩⟩, ⟨0, 32, fun _ => ⟨0, 100⟩⟩, ⟨3, 40, fun _ => ⟨0, 1200⟩⟩],
      (Call.rapid_on_transition (⟨0, 0, 500, 900, 50, false⟩ : dt_sensor_entry).key_id ∈ r.calls →
        16 ≤ rapid_dt r.before.sys.rstates r.uptime_ms
          (⟨0, 0, 500, 900, 50, false⟩ : dt_sensor_entry).key_id) ∧
      r.emitted.timer_calls = [] ∧
      (∀ (j : Nat) (rs : rapid_state), r.after.sys.rstates[j]? = some rs →
        rs.in_rapid = false ∧ rs.repeat_timer = none) :=
  ⟨by decide,
   rapid_mode_unreachable ⟨0, 0, 500, 900, 50, false⟩
     (hall_socd_register_sensor_count (socd_boot 0) 1) 100
     [⟨0, 32, fun _ => ⟨0, 1200⟩⟩, ⟨0, 32, fun _ => ⟨0, 100⟩⟩, ⟨3, 40, fun _ => ⟨0, 1200⟩⟩]
     (by decide) (by decide) (by decide) (by decide)⟩

/-! ## dt_init_sensors and the resolver -/

/-- C17 (failing input): a devicetree with the one node `hall_sensor_0`,
status okay, `key-id = <5>`, calibrated at boot on readings of 620.
`dt_init_sensors` configures the sensor with `key_id = 5` and registers
`sensor_count = 1`; the resolver drops the press and the release of key 5, and
a handler cycle that presses the sensor emits no key-position event. -/
theorem configured_key_id_dropped :
    dt_init_sensors true [some ⟨true, some 5⟩] true (fun _ _ => ⟨0, 620⟩) (socd_boot 0)
      = Except.ok
          { sensors := [⟨0, 5, 499, 899, 50, false⟩],
            socd := hall_socd_register_sensor_count (socd_boot 0) 1,
            first_delay_ms := [100] } ∧
    hall_socd_register_press (hall_socd_register_sensor_count (socd_boot 0) 1) 5
      = (hall_socd_register_sensor_count (socd_boot 0) 1, []) ∧
    hall_socd_register_release (hall_socd_register_sensor_count (socd_boot 0) 1) 5
      = (hall_socd_register_sensor_count (socd_boot 0) 1, []) ∧
    (system_cycle_avg 132 ⟨hall_socd_register_sensor_count (socd_boot 0) 1, rapid_boot⟩
        ⟨0, 5, 499, 899, 50, false⟩ 950).1.reported_state = true ∧
    (system_cycle_avg 132 ⟨hall_socd_register_sensor_count (socd_boot 0) 1, rapid_boot⟩
        ⟨0, 5, 499, 899, 50, false⟩ 950).2.2.key_positions = [] :=
  ⟨rfl, by decide, by decide, by decide, by decide⟩

/-! ## Invariants behind the hypotheses -/

/-- The rapid-trigger module keeps every entry in a state where the timer runs
only while `in_rapid` is set: it holds at program start and both entry points
preserve it. -/
theorem rapid_entry_wf_invariant (rstates : List rapid_state) (uptime_ms : Nat) (k : Int)
    (h : ∀ (j : Nat) (rs : rapid_state), rstates[j]? = some rs → rapid_entry_wf rs) :
    (∀ (j : Nat) (rs : rapid_state), rapid_boot[j]? = some rs → rapid_entry_wf rs) ∧
    (∀ (j : Nat) (rs : rapid_state),
      (hall_rapid_on_transition rstates uptime_ms k).1[j]? = some rs → rapid_entry_wf rs) ∧
    (∀ (j : Nat) (rs : rapid_state),
      (hall_rapid_stop rstates k).1[j]? = some rs → rapid_entry_wf rs) := by
  have hset : ∀ (new : rapid_state), rapid_entry_wf new →
      ∀ (j : Nat) (rs : rapid_state), (rstates.set k.toNat new)[j]? = some rs →
        rapid_entry_wf rs := by
    intro new hnew j rs hj
    rw [List.getElem?_set] at hj
    split_ifs at hj with h1 h2
    · rw [← Option.some.inj hj]; exact hnew
    · exact h j rs hj
  have hd : rapid_entry_wf (rstates.getD k.toNat rapid_state_zero) := by
    rw [List.getD_eq_getElem?_getD]
    cases hk : rstates[k.toNat]? with
    | none => intro _; rfl
    | some old => exact h _ _ hk
  refine ⟨?_, ?_, ?_⟩
  · intro j rs hj
    unfold rapid_boot at hj
    rw [List.getElem?_replicate] at hj
    split_ifs at hj
    rw [← Option.some.inj hj]
    intro _; rfl
  · unfold hall_rapid_on_transition
    simp only
    split_ifs
    · exact hset _ (fun hc => by simp at hc)
    · exact hset _ (fun hc => hd hc)
    · exact hset _ (fun hc => hd hc)
  · unfold hall_rapid_stop
    simp only
    split_ifs
    · exact hset _ (fun _ => rfl)
    · exact h

/-- When no node carries a `key-id` property, every sensor that the parsing
loop configures has its index as `key_id`, below the number of sensors. -/
theorem dt_init_loop_default_key_ids (dt : List (Option DtNode))
    (hnone : ∀ (i : Nat) (node : DtNode), dt_node dt i = some node → node.key_id = none)
    (n : Nat) :
    ∀ (i : Nat) (sensors : List dt_sensor_entry),
      (∀ s ∈ sensors, 0 ≤ s.key_id ∧ s.key_id < (sensors.length : Int)) →
      ∀ s ∈ dt_init_loop dt n i sensors,
        0 ≤ s.key_id ∧ s.key_id < ((dt_init_loop dt n i sensors).length : Int) := by
  induction n with
  | zero => intro i sensors h; exact h
  | succ n ih =>
    intro i sensors h
    have hgrow : ∀ ch : Nat, ∀ s ∈ sensors ++ [dt_init_entry ch (sensors.length : Int)],
        0 ≤ s.key_id ∧ s.key_id < ((sensors ++ [dt_init_entry ch (sensors.length : Int)]).length : Int) := by
      intro ch s hs
      rw [List.mem_append] at hs
      simp only [List.length_append, List.length_singleton, Nat.cast_add, Nat.cast_one]
      rcases hs with hs | hs
      · have := h s hs; omega
      · simp only [List.mem_singleton] at hs
        subst hs
        simp only [dt_init_entry]
        omega
    rw [dt_init_loop]
    cases hnode : dt_node dt i with
    | none => exact ih _ _ h
    | some node =>
      have hk := hnone i node hnode
      simp only [hk]
      split_ifs
      · exact ih _ _ h
      · exact h
      · exact ih _ _ (hgrow 0)
      · exact ih _ _ (hgrow 5)
      · exact h

end HallEffect
